import Mathlib

/-!
Shallow embedding of the PyTASA numerical core (pytasa/rotate.py and
pytasa/effective_medium.py) over the real numbers, together with proofs of
the specified algebraic properties.  Machine floats are idealised as real
numbers; numpy arrays become functions out of `Fin`-index types or lists,
and raised Python exceptions become `Except` errors.
-/

open Matrix

noncomputable section

/-- Real 3x3 matrices (numpy shape (3,3)). -/
abbrev Mat3 := Matrix (Fin 3) (Fin 3) ℝ

/-- Real 6x6 matrices in Voigt notation (numpy shape (6,6)). -/
abbrev Mat6 := Matrix (Fin 6) (Fin 6) ℝ

/-- Fourth-rank 3x3x3x3 stiffness tensors (numpy shape (3,3,3,3)). -/
abbrev Tens4 := Fin 3 → Fin 3 → Fin 3 → Fin 3 → ℝ

/-- Python exceptions raised by the embedded code. -/
inductive PyErr
  | indexError (msg : String)
  | valueError (msg : String)
  | typeError (msg : String)
  deriving DecidableEq

/-- ij2I from rotate.py: convert tensor index pair to the Voigt index.
The Python if-chain has no final else (it would return None); on the actual
domain {0,1,2}^2 the six conditions are exhaustive, and the residual cases of
the last condition, (0,1) and (1,0), are folded into the final else here. -/
def ij2I (i j : Fin 3) : Fin 6 :=
  if i = 0 ∧ j = 0 then 0
  else if i = 1 ∧ j = 1 then 1
  else if i = 2 ∧ j = 2 then 2
  else if (i = 1 ∧ j = 2) ∨ (i = 2 ∧ j = 1) then 3
  else if (i = 0 ∧ j = 2) ∨ (i = 2 ∧ j = 0) then 4
  else 5

/-- Single imperative tensor store `T[a,b,c,d] = v`. -/
def setT (T : Tens4) (a b c d : Fin 3) (v : ℝ) : Tens4 :=
  fun p q r s => if p = a ∧ q = b ∧ r = c ∧ s = d then v else T p q r s

/-- Single imperative matrix store `A[I,J] = v`. -/
def setM6 (A : Mat6) (I J : Fin 6) (v : ℝ) : Mat6 :=
  Matrix.of fun P Q => if P = I ∧ Q = J then v else A P Q

/-- cij2cijkl from rotate.py: Voigt 6x6 matrix to 3x3x3x3 tensor, as the
literal sequence of 81 array stores of the source (starting from
`CC = np.zeros((3,3,3,3))`). -/
def cij2cijkl (C : Mat6) : Tens4 :=
  let CC : Tens4 := fun _ _ _ _ => 0
  let CC := setT CC 0 0 0 0 (C 0 0)
  let CC := setT CC 1 1 1 1 (C 1 1)
  let CC := setT CC 2 2 2 2 (C 2 2)
  let CC := setT CC 1 2 1 2 (C 3 3)
  let CC := setT CC 2 1 2 1 (CC 1 2 1 2)
  let CC := setT CC 1 2 2 1 (CC 1 2 1 2)
  let CC := setT CC 2 1 1 2 (CC 1 2 1 2)
  let CC := setT CC 0 2 0 2 (C 4 4)
  let CC := setT CC 2 0 0 2 (CC 0 2 0 2)
  let CC := setT CC 0 2 2 0 (CC 0 2 0 2)
  let CC := setT CC 2 0 2 0 (CC 0 2 0 2)
  let CC := setT CC 0 0 1 1 (C 0 1)
  let CC := setT CC 1 1 0 0 (CC 0 0 1 1)
  let CC := setT CC 0 0 2 2 (C 0 2)
  let CC := setT CC 2 2 0 0 (CC 0 0 2 2)
  let CC := setT CC 0 0 1 2 (C 0 3)
  let CC := setT CC 0 0 2 1 (CC 0 0 1 2)
  let CC := setT CC 1 2 0 0 (CC 0 0 1 2)
  let CC := setT CC 2 1 0 0 (CC 0 0 1 2)
  let CC := setT CC 0 0 0 2 (C 0 4)
  let CC := setT CC 0 0 2 0 (CC 0 0 0 2)
  let CC := setT CC 0 2 0 0 (CC 0 0 0 2)
  let CC := setT CC 2 0 0 0 (CC 0 0 0 2)
  let CC := setT CC 0 0 0 1 (C 0 5)
  let CC := setT CC 0 0 1 0 (CC 0 0 0 1)
  let CC := setT CC 0 1 0 0 (CC 0 0 0 1)
  let CC := setT CC 1 0 0 0 (CC 0 0 0 1)
  let CC := setT CC 1 1 2 2 (C 1 2)
  let CC := setT CC 2 2 1 1 (CC 1 1 2 2)
  let CC := setT CC 1 1 1 2 (C 1 3)
  let CC := setT CC 1 1 2 1 (CC 1 1 1 2)
  let CC := setT CC 1 2 1 1 (CC 1 1 1 2)
  let CC := setT CC 2 1 1 1 (CC 1 1 1 2)
  let CC := setT CC 1 1 0 2 (C 1 4)
  let CC := setT CC 1 1 2 0 (CC 1 1 0 2)
  let CC := setT CC 0 2 1 1 (CC 1 1 0 2)
  let CC := setT CC 2 0 1 1 (CC 1 1 0 2)
  let CC := setT CC 1 1 0 1 (C 1 5)
  let CC := setT CC 1 1 1 0 (CC 1 1 0 1)
  let CC := setT CC 0 1 1 1 (CC 1 1 0 1)
  let CC := setT CC 1 0 1 1 (CC 1 1 0 1)
  let CC := setT CC 2 2 1 2 (C 2 3)
  let CC := setT CC 2 2 2 1 (CC 2 2 1 2)
  let CC := setT CC 1 2 2 2 (CC 2 2 1 2)
  let CC := setT CC 2 1 2 2 (CC 2 2 1 2)
  let CC := setT CC 2 2 0 2 (C 2 4)
  let CC := setT CC 2 2 2 0 (CC 2 2 0 2)
  let CC := setT CC 0 2 2 2 (CC 2 2 0 2)
  let CC := setT CC 2 0 2 2 (CC 2 2 0 2)
  let CC := setT CC 2 2 0 1 (C 2 5)
  let CC := setT CC 2 2 1 0 (CC 2 2 0 1)
  let CC := setT CC 0 1 2 2 (CC 2 2 0 1)
  let CC := setT CC 1 0 2 2 (CC 2 2 0 1)
  let CC := setT CC 1 2 0 2 (C 3 4)
  let CC := setT CC 2 1 0 2 (CC 1 2 0 2)
  let CC := setT CC 0 2 2 1 (CC 1 2 0 2)
  let CC := setT CC 0 2 1 2 (CC 1 2 0 2)
  let CC := setT CC 1 2 2 0 (CC 1 2 0 2)
  let CC := setT CC 2 1 2 0 (CC 1 2 0 2)
  let CC := setT CC 2 0 1 2 (CC 1 2 0 2)
  let CC := setT CC 2 0 2 1 (CC 1 2 0 2)
  let CC := setT CC 1 2 0 1 (C 3 5)
  let CC := setT CC 2 1 0 1 (CC 1 2 0 1)
  let CC := setT CC 0 1 1 2 (CC 1 2 0 1)
  let CC := setT CC 0 1 2 1 (CC 1 2 0 1)
  let CC := setT CC 1 2 1 0 (CC 1 2 0 1)
  let CC := setT CC 2 1 1 0 (CC 1 2 0 1)
  let CC := setT CC 1 0 1 2 (CC 1 2 0 1)
  let CC := setT CC 1 0 2 1 (CC 1 2 0 1)
  let CC := setT CC 0 2 0 1 (C 4 5)
  let CC := setT CC 2 0 0 1 (CC 0 2 0 1)
  let CC := setT CC 0 1 0 2 (CC 0 2 0 1)
  let CC := setT CC 0 1 2 0 (CC 0 2 0 1)
  let CC := setT CC 0 2 1 0 (CC 0 2 0 1)
  let CC := setT CC 2 0 1 0 (CC 0 2 0 1)
  let CC := setT CC 1 0 0 2 (CC 0 2 0 1)
  let CC := setT CC 1 0 2 0 (CC 0 2 0 1)
  let CC := setT CC 0 1 0 1 (C 5 5)
  let CC := setT CC 1 0 0 1 (CC 0 1 0 1)
  let CC := setT CC 0 1 1 0 (CC 0 1 0 1)
  let CC := setT CC 1 0 1 0 (CC 0 1 0 1)
  CC

/-- cijkl2cij from rotate.py: 3x3x3x3 tensor to Voigt 6x6 matrix, as the
source's four nested loops over i, j, k, l (later iterations overwrite
earlier stores to the same reduced pair), starting from `np.zeros((6,6))`. -/
def cijkl2cij (C : Tens4) : Mat6 :=
  (List.finRange 3).foldl (fun CC i =>
    (List.finRange 3).foldl (fun CC j =>
      (List.finRange 3).foldl (fun CC k =>
        (List.finRange 3).foldl (fun CC l =>
          setM6 CC (ij2I i j) (ij2I k l) (C i j k l)) CC) CC) CC)
    (Matrix.of fun _ _ => (0 : ℝ))

/-- Representative tensor index pair for a Voigt index: the pair written last
by the loop order of cijkl2cij. -/
def rep2I : Fin 6 → Fin 3 × Fin 3
  | 0 => (0, 0)
  | 1 => (1, 1)
  | 2 => (2, 2)
  | 3 => (2, 1)
  | 4 => (2, 0)
  | 5 => (1, 0)

set_option maxRecDepth 20000
set_option maxHeartbeats 1600000

/-- Row-major flattening of a 3x3 matrix (`R.flat`, as np.outer uses it). -/
def mat3flat (R : Mat3) : Fin 9 → ℝ :=
  fun u => R ⟨u.val / 3, by have := u.isLt; omega⟩ ⟨u.val % 3, by have := u.isLt; omega⟩

/-- `RR = np.outer(R, R)`: 9x9 outer product of the flattened matrix with itself. -/
def outerRR (R : Mat3) : Fin 9 → Fin 9 → ℝ :=
  fun u v => mat3flat R u * mat3flat R v

/-- Row-major flattening of a 9x9 array (`RR.flat`). -/
def flat81 (A : Fin 9 → Fin 9 → ℝ) : Fin 81 → ℝ :=
  fun w => A ⟨w.val / 9, by have := w.isLt; omega⟩ ⟨w.val % 9, by have := w.isLt; omega⟩

/-- `np.outer(RR, RR)`: the 81x81 outer product of the flattened 9x9 array. -/
def outerRRRR (R : Mat3) : Fin 81 → Fin 81 → ℝ :=
  fun u v => flat81 (outerRR R) u * flat81 (outerRR R) v

/-- `np.outer(RR, RR).reshape(4 * R.shape)`: the row-major reshape of the
81x81 outer product to eight axes of size 3. -/
def RRRR8 (R : Mat3) (a1 a2 a3 a4 a5 a6 a7 a8 : Fin 3) : ℝ :=
  outerRRRR R
    ⟨27 * a1.val + 9 * a2.val + 3 * a3.val + a4.val, by
      have := a1.isLt; have := a2.isLt; have := a3.isLt; have := a4.isLt; omega⟩
    ⟨27 * a5.val + 9 * a6.val + 3 * a7.val + a8.val, by
      have := a5.isLt; have := a6.isLt; have := a7.isLt; have := a8.isLt; omega⟩

/-- rotate_Cijkl from rotate.py: `np.tensordot(RRRR, C, ((0,2,4,6),(0,1,2,3)))`,
contracting axes 0, 2, 4, 6 of the reshaped outer product against the four
axes of C and leaving the free axes 1, 3, 5, 7 in order. -/
def rotate_Cijkl (C : Tens4) (R : Mat3) : Tens4 :=
  fun i j k l => ∑ p, ∑ q, ∑ r, ∑ s, RRRR8 R p i q j r k s l * C p q r s

/-- rotate_Cij from rotate.py: Voigt to tensor, rotate, back to Voigt. -/
def rotate_Cij (C : Mat6) (R : Mat3) : Mat6 :=
  cijkl2cij (rotate_Cijkl (cij2cijkl C) R)

/-- The stack of the three elementary rotation matrices built inside
rotation_matrix (the 3x3x3 array `R` of the source, one matrix per axis). -/
def rot_elems (alpha beta gamma : ℝ) : Fin 3 → Mat3 :=
  let ca := Real.cos alpha
  let sa := Real.sin alpha
  let cb := Real.cos beta
  let sb := Real.sin beta
  let cg := Real.cos gamma
  let sg := Real.sin gamma
  ![!![1, 0, 0; 0, ca, sa; 0, -sa, ca],
    !![cb, 0, -sb; 0, 1, 0; sb, 0, cb],
    !![cg, sg, 0; -sg, cg, 0; 0, 0, 1]]

/-- rotation_matrix from rotate.py: compose the elementary rotations in the
caller-given order, `R[order[2]] @ (R[order[1]] @ R[order[0]])`. -/
def rotation_matrix (alpha beta gamma : ℝ) (order : Fin 3 → Fin 3) : Mat3 :=
  let R := rot_elems alpha beta gamma
  R (order 2) * (R (order 1) * R (order 0))

/-- A numpy ndarray: a shape tuple with row-major flat data. -/
structure NDArray where
  shape : List ℕ
  flat : ℕ → ℝ

/-- View a (6,6)-shaped ndarray as a 6x6 matrix. -/
def NDArray.toMat6 (C : NDArray) : Mat6 :=
  Matrix.of fun i j => C.flat (6 * i.val + j.val)

/-- Pack a 6x6 matrix as a (6,6)-shaped ndarray. -/
def NDArray.ofMat6 (M : Mat6) : NDArray :=
  ⟨[6, 6], fun n => M ⟨n / 6 % 6, Nat.mod_lt _ (by norm_num)⟩ ⟨n % 6, Nat.mod_lt _ (by norm_num)⟩⟩

/-- rotate_C from rotate.py.  The first branch takes the Voigt path when
`len(C.shape) == 2 and C.shape[0] == 6`.  The source's elif guard is
`len(C.shape == 4)`: comparing the shape tuple with the integer 4 yields the
boolean False, and calling len() on a bool raises TypeError, so every
non-matching input raises that TypeError and the tensor branch and the final
`raise TypeError(msg)` are unreachable. -/
def rotate_C (C : NDArray) (alpha beta gamma : ℝ) (order : Fin 3 → Fin 3) :
    Except PyErr NDArray :=
  let R := rotation_matrix alpha beta gamma order
  if C.shape.length = 2 ∧ C.shape.headI = 6 then
    Except.ok (NDArray.ofMat6 (rotate_Cij C.toMat6 R))
  else
    Except.error (PyErr.typeError "object of type bool has no len")

/-- Modelled from the spec: the closed-form K-matrix of `rotateViaKMatrix`
(spec section 4.3) is not present under src/.  K is assembled from four 3x3
blocks as `K = [[K1, 2*K2], [K3, K4]]`: K1 from squared entries of the
rotation, K2 and K3 from paired products, K4 from cross products, with the
shear ordering of the Voigt pairs 3=(1,2), 4=(0,2), 5=(0,1); each R factor
contributes through its first index, matching the contraction convention of
rotate_Cijkl. -/
def kmat (R : Mat3) : Mat6 :=
  !![R 0 0 ^ 2, R 1 0 ^ 2, R 2 0 ^ 2,
       2 * (R 1 0 * R 2 0), 2 * (R 0 0 * R 2 0), 2 * (R 0 0 * R 1 0);
     R 0 1 ^ 2, R 1 1 ^ 2, R 2 1 ^ 2,
       2 * (R 1 1 * R 2 1), 2 * (R 0 1 * R 2 1), 2 * (R 0 1 * R 1 1);
     R 0 2 ^ 2, R 1 2 ^ 2, R 2 2 ^ 2,
       2 * (R 1 2 * R 2 2), 2 * (R 0 2 * R 2 2), 2 * (R 0 2 * R 1 2);
     R 0 1 * R 0 2, R 1 1 * R 1 2, R 2 1 * R 2 2,
       R 1 1 * R 2 2 + R 2 1 * R 1 2, R 0 1 * R 2 2 + R 2 1 * R 0 2,
       R 0 1 * R 1 2 + R 1 1 * R 0 2;
     R 0 0 * R 0 2, R 1 0 * R 1 2, R 2 0 * R 2 2,
       R 1 0 * R 2 2 + R 2 0 * R 1 2, R 0 0 * R 2 2 + R 2 0 * R 0 2,
       R 0 0 * R 1 2 + R 1 0 * R 0 2;
     R 0 0 * R 0 1, R 1 0 * R 1 1, R 2 0 * R 2 1,
       R 1 0 * R 2 1 + R 2 0 * R 1 1, R 0 0 * R 2 1 + R 2 0 * R 0 1,
       R 0 0 * R 1 1 + R 1 0 * R 0 1]

/-- Modelled from the spec: the fast rotation path `M' = K * M * K_transpose`. -/
def rotateViaKMatrix (M : Mat6) (R : Mat3) : Mat6 :=
  kmat R * M * (kmat R)ᵀ

namespace Backus

/-- The weighted-average operator of backus_monoclin:
`av = lambda x: num.sum(f*x)` (elementwise product, then sum). -/
def av (f : List ℝ) (x : List ℝ) : ℝ := (List.zipWith (· * ·) f x).sum

/-- The per-layer extractor of backus_monoclin:
`get = lambda i, j: num.array([cc[i-1, j-1] for cc in c])`; indices here are
already 0-based, so the source's `get(i, j)` is `get c (i-1) (j-1)`. -/
def get (c : List Mat6) (i j : Fin 6) : List ℝ := c.map fun cc => cc i j

/-- Elementwise product of two equal-length numpy arrays. -/
def amul (x y : List ℝ) : List ℝ := List.zipWith (· * ·) x y

/-- Elementwise sum of two equal-length numpy arrays. -/
def aadd (x y : List ℝ) : List ℝ := List.zipWith (· + ·) x y

/-- Elementwise difference of two equal-length numpy arrays. -/
def asub (x y : List ℝ) : List ℝ := List.zipWith (· - ·) x y

/-- Elementwise quotient of two equal-length numpy arrays. -/
def adiv (x y : List ℝ) : List ℝ := List.zipWith (· / ·) x y

/-- Elementwise reciprocal `1/x` of a numpy array. -/
def ainv (x : List ℝ) : List ℝ := x.map fun t => 1 / t

/-- Elementwise square `x**2` of a numpy array. -/
def asq (x : List ℝ) : List ℝ := x.map fun t => t ^ 2

/-- Layer values c11 = get(1, 1). -/
def c11 (c : List Mat6) : List ℝ := get c 0 0

/-- Layer values c22 = get(2, 2). -/
def c22 (c : List Mat6) : List ℝ := get c 1 1

/-- Layer values c33 = get(3, 3). -/
def c33 (c : List Mat6) : List ℝ := get c 2 2

/-- Layer values c44 = get(4, 4). -/
def c44 (c : List Mat6) : List ℝ := get c 3 3

/-- Layer values c55 = get(5, 5). -/
def c55 (c : List Mat6) : List ℝ := get c 4 4

/-- Layer values c66 = get(6, 6). -/
def c66 (c : List Mat6) : List ℝ := get c 5 5

/-- Layer values c12 = get(1, 2). -/
def c12 (c : List Mat6) : List ℝ := get c 0 1

/-- Layer values c13 = get(1, 3). -/
def c13 (c : List Mat6) : List ℝ := get c 0 2

/-- Layer values c15 = get(1, 5). -/
def c15 (c : List Mat6) : List ℝ := get c 0 4

/-- Layer values c23 = get(2, 3). -/
def c23 (c : List Mat6) : List ℝ := get c 1 2

/-- Layer values c25 = get(2, 5). -/
def c25 (c : List Mat6) : List ℝ := get c 1 4

/-- Layer values c35 = get(3, 5). -/
def c35 (c : List Mat6) : List ℝ := get c 2 4

/-- Layer values c46 = get(4, 6). -/
def c46 (c : List Mat6) : List ℝ := get c 3 5

/-- Per-layer `A = c33*c55 - c35**2`. -/
def A (c : List Mat6) : List ℝ := asub (amul (c33 c) (c55 c)) (asq (c35 c))

/-- Per-layer `B1 = (c13*c55 - c15*c35)/A`. -/
def B1 (c : List Mat6) : List ℝ :=
  adiv (asub (amul (c13 c) (c55 c)) (amul (c15 c) (c35 c))) (A c)

/-- Per-layer `B2 = (c15*c33 - c13*c35)/A`. -/
def B2 (c : List Mat6) : List ℝ :=
  adiv (asub (amul (c15 c) (c33 c)) (amul (c13 c) (c35 c))) (A c)

/-- Per-layer `B3 = (c23*c55 - c25*c35)/A`. -/
def B3 (c : List Mat6) : List ℝ :=
  adiv (asub (amul (c23 c) (c55 c)) (amul (c25 c) (c35 c))) (A c)

/-- Per-layer `B4 = (c25*c33 - c23*c35)/A`. -/
def B4 (c : List Mat6) : List ℝ :=
  adiv (asub (amul (c25 c) (c33 c)) (amul (c23 c) (c35 c))) (A c)

/-- Scalar `AA = (av(c33/A)*av(c55/A) - av(c35/A)**2)**-1`. -/
def AA (f : List ℝ) (c : List Mat6) : ℝ :=
  (av f (adiv (c33 c) (A c)) * av f (adiv (c55 c) (A c))
    - av f (adiv (c35 c) (A c)) ^ 2)⁻¹

/-- Scalar `B5` of the source. -/
def B5 (f : List ℝ) (c : List Mat6) : ℝ :=
  AA f c * (av f (adiv (c33 c) (A c)) * av f (B1 c) ^ 2
    + 2 * av f (adiv (c35 c) (A c)) * av f (B1 c) * av f (B2 c)
    + av f (adiv (c55 c) (A c)) * av f (B2 c) ^ 2)

/-- Scalar `B6` of the source. -/
def B6 (f : List ℝ) (c : List Mat6) : ℝ :=
  AA f c * (av f (adiv (c33 c) (A c)) * av f (B1 c) * av f (B3 c)
    + av f (adiv (c35 c) (A c)) * av f (B1 c) * av f (B4 c)
    + av f (adiv (c35 c) (A c)) * av f (B2 c) * av f (B3 c)
    + av f (adiv (c55 c) (A c)) * av f (B2 c) * av f (B4 c))

/-- Scalar `B7` of the source. -/
def B7 (f : List ℝ) (c : List Mat6) : ℝ :=
  AA f c * (av f (adiv (c33 c) (A c)) * av f (B3 c) ^ 2
    + 2 * av f (adiv (c35 c) (A c)) * av f (B3 c) * av f (B4 c)
    + av f (adiv (c55 c) (A c)) * av f (B4 c) ^ 2)

/-- Entry `ce[0,0] = av(c11) - av(c13*B1 + c15*B2) + B5`. -/
def ce00 (f : List ℝ) (c : List Mat6) : ℝ :=
  av f (c11 c) - av f (aadd (amul (c13 c) (B1 c)) (amul (c15 c) (B2 c))) + B5 f c

/-- Entry `ce[1,1] = av(c22) - av(c23*B3 + c25*B4) + B7`. -/
def ce11 (f : List ℝ) (c : List Mat6) : ℝ :=
  av f (c22 c) - av f (aadd (amul (c23 c) (B3 c)) (amul (c25 c) (B4 c))) + B7 f c

/-- Entry `ce[2,2] = AA*av(c33/A)`. -/
def ce22 (f : List ℝ) (c : List Mat6) : ℝ := AA f c * av f (adiv (c33 c) (A c))

/-- Entry `ce[3,3] = av(1/c44)**-1`. -/
def ce33 (f : List ℝ) (c : List Mat6) : ℝ := (av f (ainv (c44 c)))⁻¹

/-- Entry `ce[4,4] = AA*av(c55/A)`. -/
def ce44 (f : List ℝ) (c : List Mat6) : ℝ := AA f c * av f (adiv (c55 c) (A c))

/-- Entry `ce[5,5] = av(c66) - av(c46**2/c44) + av(1/c44)**-1 * av(c46/c44)**2`. -/
def ce55 (f : List ℝ) (c : List Mat6) : ℝ :=
  av f (c66 c) - av f (adiv (asq (c46 c)) (c44 c))
    + (av f (ainv (c44 c)))⁻¹ * av f (adiv (c46 c) (c44 c)) ^ 2

/-- Entry `ce[0,1] = av(c12) - av(c13*B3 + c15*B4) + B6`. -/
def ce01 (f : List ℝ) (c : List Mat6) : ℝ :=
  av f (c12 c) - av f (aadd (amul (c13 c) (B3 c)) (amul (c15 c) (B4 c))) + B6 f c

/-- Entry `ce[0,2] = AA*av(c33/A)*av(B1) + AA*av(c35/A)*av(B2)`. -/
def ce02 (f : List ℝ) (c : List Mat6) : ℝ :=
  AA f c * av f (adiv (c33 c) (A c)) * av f (B1 c)
    + AA f c * av f (adiv (c35 c) (A c)) * av f (B2 c)

/-- Entry `ce[0,4] = AA*av(c35/A)*av(B1) + AA*av(c55/A)*av(B2)`. -/
def ce04 (f : List ℝ) (c : List Mat6) : ℝ :=
  AA f c * av f (adiv (c35 c) (A c)) * av f (B1 c)
    + AA f c * av f (adiv (c55 c) (A c)) * av f (B2 c)

/-- Entry `ce[1,2] = AA*av(c33/A)*av(B3) + AA*av(c35/A)*av(B4)`. -/
def ce12 (f : List ℝ) (c : List Mat6) : ℝ :=
  AA f c * av f (adiv (c33 c) (A c)) * av f (B3 c)
    + AA f c * av f (adiv (c35 c) (A c)) * av f (B4 c)

/-- Entry `ce[1,4] = AA*av(c35/A)*av(B3) + AA*av(c55/A)*av(B4)`. -/
def ce14 (f : List ℝ) (c : List Mat6) : ℝ :=
  AA f c * av f (adiv (c35 c) (A c)) * av f (B3 c)
    + AA f c * av f (adiv (c55 c) (A c)) * av f (B4 c)

/-- Entry `ce[2,4] = AA*av(c35/A)`. -/
def ce24 (f : List ℝ) (c : List Mat6) : ℝ := AA f c * av f (adiv (c35 c) (A c))

/-- Entry `ce[3,5] = av(1/c44)**-1 * av(c46/c44)`. -/
def ce35 (f : List ℝ) (c : List Mat6) : ℝ :=
  (av f (ainv (c44 c)))⁻¹ * av f (adiv (c46 c) (c44 c))

end Backus

/-- The assembly of the output matrix of backus_monoclin, after validation:
`ce = num.zeros((6, 6))` followed by the source's store sequence, the mirror
stores reading the entry previously written (`ce[1, 0] = ce[0, 1]`, etc.). -/
def backus_core (f : List ℝ) (c : List Mat6) : Mat6 :=
  let ce : Mat6 := Matrix.of fun _ _ => 0
  let ce := setM6 ce 0 0 (Backus.ce00 f c)
  let ce := setM6 ce 1 1 (Backus.ce11 f c)
  let ce := setM6 ce 2 2 (Backus.ce22 f c)
  let ce := setM6 ce 3 3 (Backus.ce33 f c)
  let ce := setM6 ce 4 4 (Backus.ce44 f c)
  let ce := setM6 ce 5 5 (Backus.ce55 f c)
  let ce := setM6 ce 0 1 (Backus.ce01 f c)
  let ce := setM6 ce 0 2 (Backus.ce02 f c)
  let ce := setM6 ce 0 4 (Backus.ce04 f c)
  let ce := setM6 ce 1 0 (ce 0 1)
  let ce := setM6 ce 2 0 (ce 0 2)
  let ce := setM6 ce 4 0 (ce 0 4)
  let ce := setM6 ce 1 2 (Backus.ce12 f c)
  let ce := setM6 ce 1 4 (Backus.ce14 f c)
  let ce := setM6 ce 2 1 (ce 1 2)
  let ce := setM6 ce 4 1 (ce 1 4)
  let ce := setM6 ce 2 4 (Backus.ce24 f c)
  let ce := setM6 ce 4 2 (ce 2 4)
  let ce := setM6 ce 3 5 (Backus.ce35 f c)
  let ce := setM6 ce 5 3 (ce 3 5)
  ce

/-- eps from effective_medium.py: `abs(7./3 - 4./3 - 1)`.  In the source this
is the double-precision rounding artifact (the machine epsilon); over the
reals the same expression is exactly zero. -/
def eps : ℝ := |7 / 3 - 4 / 3 - 1|

/-- backus_monoclin from effective_medium.py: validate the layer count and
the fraction sum (raising IndexError and ValueError respectively, in source
order, before any averaging), then assemble the averaged matrix. -/
def backus_monoclin (f : List ℝ) (c : List Mat6) : Except PyErr Mat6 :=
  if c.length ≠ f.length then
    Except.error (PyErr.indexError
      "c, f, and m must have the same size and have at least one element")
  else if |f.sum - 1| > eps then
    Except.error (PyErr.valueError "Elements of f must sum up to 1")
  else
    Except.ok (backus_core f c)

/-- Concrete tensor input for separating the two contraction conventions:
a single one at index (0,0,0,0). -/
def cexT : Tens4 := fun p q r s => if p = 0 ∧ q = 0 ∧ r = 0 ∧ s = 0 then 1 else 0

/-- Concrete matrix input with a single one at entry (0,1). -/
def cexR : Mat3 := Matrix.of fun i j => if i = 0 ∧ j = 1 then 1 else 0

/-- Concrete (3,3,3,3)-shaped ndarray of zeros. -/
def cexArr : NDArray := ⟨[3, 3, 3, 3], fun _ => 0⟩

/-- Concrete 6x6 matrix agreeing with the identity on diagonal and upper
triangle but differing at the lower-triangle entry (1,0). -/
def cexM : Mat6 :=
  Matrix.of fun i j => if i = 1 ∧ j = 0 then 5 else (1 : Mat6) i j

/-!
Helper lemmas about the embedded definitions.
-/

/-- The 6x6 identity matrix is symmetric (used to discharge symmetry
hypotheses at a concrete input). -/
theorem one6_symm (i j : Fin 6) : (1 : Mat6) i j = (1 : Mat6) j i := by
  rcases eq_or_ne i j with rfl | hne
  · rfl
  · rw [Matrix.one_apply_ne hne, Matrix.one_apply_ne (Ne.symm hne)]

/-- A product of two matrices with orthonormal rows again has orthonormal
rows. -/
theorem mul_transpose_cancel {A B : Mat3} (hA : A * Aᵀ = 1) (hB : B * Bᵀ = 1) :
    (A * B) * (A * B)ᵀ = 1 := by
  rw [Matrix.transpose_mul, Matrix.mul_assoc, ← Matrix.mul_assoc B, hB,
    Matrix.one_mul, hA]

theorem ij2I_symm : ∀ i j : Fin 3, ij2I i j = ij2I j i := by decide

theorem ij2I_rep2I : ∀ I : Fin 6, ij2I (rep2I I).1 (rep2I I).2 = I := by decide

/-- The final state of the 81 stores of cij2cijkl: on a symmetric input
matrix, every tensor entry equals the input at the reduced index pair. -/
theorem cij2cijkl_apply (M : Mat6) (h : ∀ i j, M i j = M j i)
    (p q r s : Fin 3) : cij2cijkl M p q r s = M (ij2I p q) (ij2I r s) := by
  fin_cases p <;> fin_cases q <;> fin_cases r <;> fin_cases s <;>
    first
      | rfl
      | exact h 0 1 | exact h 0 2 | exact h 0 3 | exact h 0 4 | exact h 0 5
      | exact h 1 2 | exact h 1 3 | exact h 1 4 | exact h 1 5
      | exact h 2 3 | exact h 2 4 | exact h 2 5
      | exact h 3 4 | exact h 3 5 | exact h 4 5

/-- The final state of the loops of cijkl2cij: each reduced entry holds the
tensor value at the last-written representative pair. -/
theorem cijkl2cij_apply (C : Tens4) (I J : Fin 6) :
    cijkl2cij C I J = C (rep2I I).1 (rep2I I).2 (rep2I J).1 (rep2I J).2 := by
  fin_cases I <;> fin_cases J <;> rfl

/-- Flattening the 81x81 outer product and reading it at a row-major packed
index recovers the product of two rotation entries. -/
theorem flat81_outerRR (R : Mat3) (a b c d : Fin 3) (W : ℕ) (hW : W < 81)
    (h : W = 27 * a.val + 9 * b.val + 3 * c.val + d.val) :
    flat81 (outerRR R) ⟨W, hW⟩ = R a b * R c d := by
  subst h
  have ha := a.isLt; have hb := b.isLt; have hc := c.isLt; have hd := d.isLt
  unfold flat81 outerRR mat3flat
  congr 1 <;> congr 1 <;> apply Fin.ext <;> simp only [Fin.val_mk] <;> omega

/-- The reshaped double outer product is the fourfold product of rotation
entries, paired along consecutive axes. -/
theorem RRRR8_eq (R : Mat3) (a1 a2 a3 a4 a5 a6 a7 a8 : Fin 3) :
    RRRR8 R a1 a2 a3 a4 a5 a6 a7 a8 = R a1 a2 * R a3 a4 * R a5 a6 * R a7 a8 := by
  unfold RRRR8 outerRRRR
  rw [flat81_outerRR R a1 a2 a3 a4 _ _ rfl, flat81_outerRR R a5 a6 a7 a8 _ _ rfl]
  ring

/-- Closed form of the tensordot in rotate_Cijkl: each output entry is the
quadruple contraction against the first index of each rotation factor. -/
theorem rotate_Cijkl_sum (C : Tens4) (R : Mat3) (i j k l : Fin 3) :
    rotate_Cijkl C R i j k l
      = ∑ p, ∑ q, ∑ r, ∑ s, R p i * R q j * R r k * R s l * C p q r s := by
  unfold rotate_Cijkl
  exact Finset.sum_congr rfl fun p _ => Finset.sum_congr rfl fun q _ =>
    Finset.sum_congr rfl fun r _ => Finset.sum_congr rfl fun s _ => by
      rw [RRRR8_eq]

/-- Each elementary rotation matrix is orthogonal. -/
theorem rot_elems_mul_transpose (alpha beta gamma : ℝ) (k : Fin 3) :
    rot_elems alpha beta gamma k * (rot_elems alpha beta gamma k)ᵀ = 1 := by
  fin_cases k <;>
    · ext i j
      simp only [Matrix.mul_apply, Matrix.transpose_apply]
      fin_cases i <;> fin_cases j <;>
        simp [rot_elems, Fin.sum_univ_three, Matrix.one_apply] <;>
        nlinarith [Real.sin_sq_add_cos_sq alpha, Real.sin_sq_add_cos_sq beta,
          Real.sin_sq_add_cos_sq gamma]

/-- Each elementary rotation matrix has determinant one. -/
theorem rot_elems_det (alpha beta gamma : ℝ) (k : Fin 3) :
    (rot_elems alpha beta gamma k).det = 1 := by
  fin_cases k <;>
    · rw [Matrix.det_fin_three]
      simp [rot_elems] <;>
        nlinarith [Real.sin_sq_add_cos_sq alpha, Real.sin_sq_add_cos_sq beta,
          Real.sin_sq_add_cos_sq gamma]

/-- Entry values of the modelled K matrix (one lemma per entry, by rfl). -/
theorem kmatE00 (R : Mat3) : kmat R 0 0 = R 0 0 ^ 2 := rfl
theorem kmatE01 (R : Mat3) : kmat R 0 1 = R 1 0 ^ 2 := rfl
theorem kmatE02 (R : Mat3) : kmat R 0 2 = R 2 0 ^ 2 := rfl
theorem kmatE03 (R : Mat3) : kmat R 0 3 = 2 * (R 1 0 * R 2 0) := rfl
theorem kmatE04 (R : Mat3) : kmat R 0 4 = 2 * (R 0 0 * R 2 0) := rfl
theorem kmatE05 (R : Mat3) : kmat R 0 5 = 2 * (R 0 0 * R 1 0) := rfl
theorem kmatE10 (R : Mat3) : kmat R 1 0 = R 0 1 ^ 2 := rfl
theorem kmatE11 (R : Mat3) : kmat R 1 1 = R 1 1 ^ 2 := rfl
theorem kmatE12 (R : Mat3) : kmat R 1 2 = R 2 1 ^ 2 := rfl
theorem kmatE13 (R : Mat3) : kmat R 1 3 = 2 * (R 1 1 * R 2 1) := rfl
theorem kmatE14 (R : Mat3) : kmat R 1 4 = 2 * (R 0 1 * R 2 1) := rfl
theorem kmatE15 (R : Mat3) : kmat R 1 5 = 2 * (R 0 1 * R 1 1) := rfl
theorem kmatE20 (R : Mat3) : kmat R 2 0 = R 0 2 ^ 2 := rfl
theorem kmatE21 (R : Mat3) : kmat R 2 1 = R 1 2 ^ 2 := rfl
theorem kmatE22 (R : Mat3) : kmat R 2 2 = R 2 2 ^ 2 := rfl
theorem kmatE23 (R : Mat3) : kmat R 2 3 = 2 * (R 1 2 * R 2 2) := rfl
theorem kmatE24 (R : Mat3) : kmat R 2 4 = 2 * (R 0 2 * R 2 2) := rfl
theorem kmatE25 (R : Mat3) : kmat R 2 5 = 2 * (R 0 2 * R 1 2) := rfl
theorem kmatE30 (R : Mat3) : kmat R 3 0 = R 0 1 * R 0 2 := rfl
theorem kmatE31 (R : Mat3) : kmat R 3 1 = R 1 1 * R 1 2 := rfl
theorem kmatE32 (R : Mat3) : kmat R 3 2 = R 2 1 * R 2 2 := rfl
theorem kmatE33 (R : Mat3) : kmat R 3 3 = R 1 1 * R 2 2 + R 2 1 * R 1 2 := rfl
theorem kmatE34 (R : Mat3) : kmat R 3 4 = R 0 1 * R 2 2 + R 2 1 * R 0 2 := rfl
theorem kmatE35 (R : Mat3) : kmat R 3 5 = R 0 1 * R 1 2 + R 1 1 * R 0 2 := rfl
theorem kmatE40 (R : Mat3) : kmat R 4 0 = R 0 0 * R 0 2 := rfl
theorem kmatE41 (R : Mat3) : kmat R 4 1 = R 1 0 * R 1 2 := rfl
theorem kmatE42 (R : Mat3) : kmat R 4 2 = R 2 0 * R 2 2 := rfl
theorem kmatE43 (R : Mat3) : kmat R 4 3 = R 1 0 * R 2 2 + R 2 0 * R 1 2 := rfl
theorem kmatE44 (R : Mat3) : kmat R 4 4 = R 0 0 * R 2 2 + R 2 0 * R 0 2 := rfl
theorem kmatE45 (R : Mat3) : kmat R 4 5 = R 0 0 * R 1 2 + R 1 0 * R 0 2 := rfl
theorem kmatE50 (R : Mat3) : kmat R 5 0 = R 0 0 * R 0 1 := rfl
theorem kmatE51 (R : Mat3) : kmat R 5 1 = R 1 0 * R 1 1 := rfl
theorem kmatE52 (R : Mat3) : kmat R 5 2 = R 2 0 * R 2 1 := rfl
theorem kmatE53 (R : Mat3) : kmat R 5 3 = R 1 0 * R 2 1 + R 2 0 * R 1 1 := rfl
theorem kmatE54 (R : Mat3) : kmat R 5 4 = R 0 0 * R 2 1 + R 2 0 * R 0 1 := rfl
theorem kmatE55 (R : Mat3) : kmat R 5 5 = R 0 0 * R 1 1 + R 1 0 * R 0 1 := rfl

/-- Values of ij2I on the nine index pairs (by rfl). -/
theorem ij2I_00 : ij2I 0 0 = 0 := rfl
theorem ij2I_01 : ij2I 0 1 = 5 := rfl
theorem ij2I_02 : ij2I 0 2 = 4 := rfl
theorem ij2I_10 : ij2I 1 0 = 5 := rfl
theorem ij2I_11 : ij2I 1 1 = 1 := rfl
theorem ij2I_12 : ij2I 1 2 = 3 := rfl
theorem ij2I_20 : ij2I 2 0 = 4 := rfl
theorem ij2I_21 : ij2I 2 1 = 3 := rfl
theorem ij2I_22 : ij2I 2 2 = 2 := rfl

/-- The tensor-contraction rotation path and the modelled K-matrix path
agree on every symmetric input matrix and every 3x3 matrix R. -/
theorem rotate_paths_agree (M : Mat6) (R : Mat3) (h : ∀ i j, M i j = M j i) :
    rotate_Cij M R = rotateViaKMatrix M R := by
  ext I J
  fin_cases I <;> fin_cases J
  · show rotate_Cijkl (cij2cijkl M) R 0 0 0 0 = rotateViaKMatrix M R 0 0
    rw [rotate_Cijkl_sum]
    simp only [cij2cijkl_apply M h, Fin.sum_univ_three, ij2I_00, ij2I_01, ij2I_02, ij2I_10, ij2I_11, ij2I_12, ij2I_20, ij2I_21, ij2I_22,
      rotateViaKMatrix, Matrix.mul_apply, Matrix.transpose_apply, Fin.sum_univ_six,
      kmatE00, kmatE01, kmatE02, kmatE03, kmatE04, kmatE05, kmatE10, kmatE11, kmatE12, kmatE13, kmatE14, kmatE15, kmatE20, kmatE21, kmatE22, kmatE23, kmatE24, kmatE25, kmatE30, kmatE31, kmatE32, kmatE33, kmatE34, kmatE35, kmatE40, kmatE41, kmatE42, kmatE43, kmatE44, kmatE45, kmatE50, kmatE51, kmatE52, kmatE53, kmatE54, kmatE55,
      h 1 0, h 2 0, h 2 1, h 3 0, h 3 1, h 3 2, h 4 0, h 4 1, h 4 2, h 4 3, h 5 0, h 5 1, h 5 2, h 5 3, h 5 4]
    ring
  · show rotate_Cijkl (cij2cijkl M) R 0 0 1 1 = rotateViaKMatrix M R 0 1
    rw [rotate_Cijkl_sum]
    simp only [cij2cijkl_apply M h, Fin.sum_univ_three, ij2I_00, ij2I_01, ij2I_02, ij2I_10, ij2I_11, ij2I_12, ij2I_20, ij2I_21, ij2I_22,
      rotateViaKMatrix, Matrix.mul_apply, Matrix.transpose_apply, Fin.sum_univ_six,
      kmatE00, kmatE01, kmatE02, kmatE03, kmatE04, kmatE05, kmatE10, kmatE11, kmatE12, kmatE13, kmatE14, kmatE15, kmatE20, kmatE21, kmatE22, kmatE23, kmatE24, kmatE25, kmatE30, kmatE31, kmatE32, kmatE33, kmatE34, kmatE35, kmatE40, kmatE41, kmatE42, kmatE43, kmatE44, kmatE45, kmatE50, kmatE51, kmatE52, kmatE53, kmatE54, kmatE55,
      h 1 0, h 2 0, h 2 1, h 3 0, h 3 1, h 3 2, h 4 0, h 4 1, h 4 2, h 4 3, h 5 0, h 5 1, h 5 2, h 5 3, h 5 4]
    ring
  · show rotate_Cijkl (cij2cijkl M) R 0 0 2 2 = rotateViaKMatrix M R 0 2
    rw [rotate_Cijkl_sum]
    simp only [cij2cijkl_apply M h, Fin.sum_univ_three, ij2I_00, ij2I_01, ij2I_02, ij2I_10, ij2I_11, ij2I_12, ij2I_20, ij2I_21, ij2I_22,
      rotateViaKMatrix, Matrix.mul_apply, Matrix.transpose_apply, Fin.sum_univ_six,
      kmatE00, kmatE01, kmatE02, kmatE03, kmatE04, kmatE05, kmatE10, kmatE11, kmatE12, kmatE13, kmatE14, kmatE15, kmatE20, kmatE21, kmatE22, kmatE23, kmatE24, kmatE25, kmatE30, kmatE31, kmatE32, kmatE33, kmatE34, kmatE35, kmatE40, kmatE41, kmatE42, kmatE43, kmatE44, kmatE45, kmatE50, kmatE51, kmatE52, kmatE53, kmatE54, kmatE55,
      h 1 0, h 2 0, h 2 1, h 3 0, h 3 1, h 3 2, h 4 0, h 4 1, h 4 2, h 4 3, h 5 0, h 5 1, h 5 2, h 5 3, h 5 4]
    ring
  · show rotate_Cijkl (cij2cijkl M) R 0 0 2 1 = rotateViaKMatrix M R 0 3
    rw [rotate_Cijkl_sum]
    simp only [cij2cijkl_apply M h, Fin.sum_univ_three, ij2I_00, ij2I_01, ij2I_02, ij2I_10, ij2I_11, ij2I_12, ij2I_20, ij2I_21, ij2I_22,
      rotateViaKMatrix, Matrix.mul_apply, Matrix.transpose_apply, Fin.sum_univ_six,
      kmatE00, kmatE01, kmatE02, kmatE03, kmatE04, kmatE05, kmatE10, kmatE11, kmatE12, kmatE13, kmatE14, kmatE15, kmatE20, kmatE21, kmatE22, kmatE23, kmatE24, kmatE25, kmatE30, kmatE31, kmatE32, kmatE33, kmatE34, kmatE35, kmatE40, kmatE41, kmatE42, kmatE43, kmatE44, kmatE45, kmatE50, kmatE51, kmatE52, kmatE53, kmatE54, kmatE55,
      h 1 0, h 2 0, h 2 1, h 3 0, h 3 1, h 3 2, h 4 0, h 4 1, h 4 2, h 4 3, h 5 0, h 5 1, h 5 2, h 5 3, h 5 4]
    ring
  · show rotate_Cijkl (cij2cijkl M) R 0 0 2 0 = rotateViaKMatrix M R 0 4
    rw [rotate_Cijkl_sum]
    simp only [cij2cijkl_apply M h, Fin.sum_univ_three, ij2I_00, ij2I_01, ij2I_02, ij2I_10, ij2I_11, ij2I_12, ij2I_20, ij2I_21, ij2I_22,
      rotateViaKMatrix, Matrix.mul_apply, Matrix.transpose_apply, Fin.sum_univ_six,
      kmatE00, kmatE01, kmatE02, kmatE03, kmatE04, kmatE05, kmatE10, kmatE11, kmatE12, kmatE13, kmatE14, kmatE15, kmatE20, kmatE21, kmatE22, kmatE23, kmatE24, kmatE25, kmatE30, kmatE31, kmatE32, kmatE33, kmatE34, kmatE35, kmatE40, kmatE41, kmatE42, kmatE43, kmatE44, kmatE45, kmatE50, kmatE51, kmatE52, kmatE53, kmatE54, kmatE55,
      h 1 0, h 2 0, h 2 1, h 3 0, h 3 1, h 3 2, h 4 0, h 4 1, h 4 2, h 4 3, h 5 0, h 5 1, h 5 2, h 5 3, h 5 4]
    ring
  · show rotate_Cijkl (cij2cijkl M) R 0 0 1 0 = rotateViaKMatrix M R 0 5
    rw [rotate_Cijkl_sum]
    simp only [cij2cijkl_apply M h, Fin.sum_univ_three, ij2I_00, ij2I_01, ij2I_02, ij2I_10, ij2I_11, ij2I_12, ij2I_20, ij2I_21, ij2I_22,
      rotateViaKMatrix, Matrix.mul_apply, Matrix.transpose_apply, Fin.sum_univ_six,
      kmatE00, kmatE01, kmatE02, kmatE03, kmatE04, kmatE05, kmatE10, kmatE11, kmatE12, kmatE13, kmatE14, kmatE15, kmatE20, kmatE21, kmatE22, kmatE23, kmatE24, kmatE25, kmatE30, kmatE31, kmatE32, kmatE33, kmatE34, kmatE35, kmatE40, kmatE41, kmatE42, kmatE43, kmatE44, kmatE45, kmatE50, kmatE51, kmatE52, kmatE53, kmatE54, kmatE55,
      h 1 0, h 2 0, h 2 1, h 3 0, h 3 1, h 3 2, h 4 0, h 4 1, h 4 2, h 4 3, h 5 0, h 5 1, h 5 2, h 5 3, h 5 4]
    ring
  · show rotate_Cijkl (cij2cijkl M) R 1 1 0 0 = rotateViaKMatrix M R 1 0
    rw [rotate_Cijkl_sum]
    simp only [cij2cijkl_apply M h, Fin.sum_univ_three, ij2I_00, ij2I_01, ij2I_02, ij2I_10, ij2I_11, ij2I_12, ij2I_20, ij2I_21, ij2I_22,
      rotateViaKMatrix, Matrix.mul_apply, Matrix.transpose_apply, Fin.sum_univ_six,
      kmatE00, kmatE01, kmatE02, kmatE03, kmatE04, kmatE05, kmatE10, kmatE11, kmatE12, kmatE13, kmatE14, kmatE15, kmatE20, kmatE21, kmatE22, kmatE23, kmatE24, kmatE25, kmatE30, kmatE31, kmatE32, kmatE33, kmatE34, kmatE35, kmatE40, kmatE41, kmatE42, kmatE43, kmatE44, kmatE45, kmatE50, kmatE51, kmatE52, kmatE53, kmatE54, kmatE55,
      h 1 0, h 2 0, h 2 1, h 3 0, h 3 1, h 3 2, h 4 0, h 4 1, h 4 2, h 4 3, h 5 0, h 5 1, h 5 2, h 5 3, h 5 4]
    ring
  · show rotate_Cijkl (cij2cijkl M) R 1 1 1 1 = rotateViaKMatrix M R 1 1
    rw [rotate_Cijkl_sum]
    simp only [cij2cijkl_apply M h, Fin.sum_univ_three, ij2I_00, ij2I_01, ij2I_02, ij2I_10, ij2I_11, ij2I_12, ij2I_20, ij2I_21, ij2I_22,
      rotateViaKMatrix, Matrix.mul_apply, Matrix.transpose_apply, Fin.sum_univ_six,
      kmatE00, kmatE01, kmatE02, kmatE03, kmatE04, kmatE05, kmatE10, kmatE11, kmatE12, kmatE13, kmatE14, kmatE15, kmatE20, kmatE21, kmatE22, kmatE23, kmatE24, kmatE25, kmatE30, kmatE31, kmatE32, kmatE33, kmatE34, kmatE35, kmatE40, kmatE41, kmatE42, kmatE43, kmatE44, kmatE45, kmatE50, kmatE51, kmatE52, kmatE53, kmatE54, kmatE55,
      h 1 0, h 2 0, h 2 1, h 3 0, h 3 1, h 3 2, h 4 0, h 4 1, h 4 2, h 4 3, h 5 0, h 5 1, h 5 2, h 5 3, h 5 4]
    ring
  · show rotate_Cijkl (cij2cijkl M) R 1 1 2 2 = rotateViaKMatrix M R 1 2
    rw [rotate_Cijkl_sum]
    simp only [cij2cijkl_apply M h, Fin.sum_univ_three, ij2I_00, ij2I_01, ij2I_02, ij2I_10, ij2I_11, ij2I_12, ij2I_20, ij2I_21, ij2I_22,
      rotateViaKMatrix, Matrix.mul_apply, Matrix.transpose_apply, Fin.sum_univ_six,
      kmatE00, kmatE01, kmatE02, kmatE03, kmatE04, kmatE05, kmatE10, kmatE11, kmatE12, kmatE13, kmatE14, kmatE15, kmatE20, kmatE21, kmatE22, kmatE23, kmatE24, kmatE25, kmatE30, kmatE31, kmatE32, kmatE33, kmatE34, kmatE35, kmatE40, kmatE41, kmatE42, kmatE43, kmatE44, kmatE45, kmatE50, kmatE51, kmatE52, kmatE53, kmatE54, kmatE55,
      h 1 0, h 2 0, h 2 1, h 3 0, h 3 1, h 3 2, h 4 0, h 4 1, h 4 2, h 4 3, h 5 0, h 5 1, h 5 2, h 5 3, h 5 4]
    ring
  · show rotate_Cijkl (cij2cijkl M) R 1 1 2 1 = rotateViaKMatrix M R 1 3
    rw [rotate_Cijkl_sum]
    simp only [cij2cijkl_apply M h, Fin.sum_univ_three, ij2I_00, ij2I_01, ij2I_02, ij2I_10, ij2I_11, ij2I_12, ij2I_20, ij2I_21, ij2I_22,
      rotateViaKMatrix, Matrix.mul_apply, Matrix.transpose_apply, Fin.sum_univ_six,
      kmatE00, kmatE01, kmatE02, kmatE03, kmatE04, kmatE05, kmatE10, kmatE11, kmatE12, kmatE13, kmatE14, kmatE15, kmatE20, kmatE21, kmatE22, kmatE23, kmatE24, kmatE25, kmatE30, kmatE31, kmatE32, kmatE33, kmatE34, kmatE35, kmatE40, kmatE41, kmatE42, kmatE43, kmatE44, kmatE45, kmatE50, kmatE51, kmatE52, kmatE53, kmatE54, kmatE55,
      h 1 0, h 2 0, h 2 1, h 3 0, h 3 1, h 3 2, h 4 0, h 4 1, h 4 2, h 4 3, h 5 0, h 5 1, h 5 2, h 5 3, h 5 4]
    ring
  · show rotate_Cijkl (cij2cijkl M) R 1 1 2 0 = rotateViaKMatrix M R 1 4
    rw [rotate_Cijkl_sum]
    simp only [cij2cijkl_apply M h, Fin.sum_univ_three, ij2I_00, ij2I_01, ij2I_02, ij2I_10, ij2I_11, ij2I_12, ij2I_20, ij2I_21, ij2I_22,
      rotateViaKMatrix, Matrix.mul_apply, Matrix.transpose_apply, Fin.sum_univ_six,
      kmatE00, kmatE01, kmatE02, kmatE03, kmatE04, kmatE05, kmatE10, kmatE11, kmatE12, kmatE13, kmatE14, kmatE15, kmatE20, kmatE21, kmatE22, kmatE23, kmatE24, kmatE25, kmatE30, kmatE31, kmatE32, kmatE33, kmatE34, kmatE35, kmatE40, kmatE41, kmatE42, kmatE43, kmatE44, kmatE45, kmatE50, kmatE51, kmatE52, kmatE53, kmatE54, kmatE55,
      h 1 0, h 2 0, h 2 1, h 3 0, h 3 1, h 3 2, h 4 0, h 4 1, h 4 2, h 4 3, h 5 0, h 5 1, h 5 2, h 5 3, h 5 4]
    ring
  · show rotate_Cijkl (cij2cijkl M) R 1 1 1 0 = rotateViaKMatrix M R 1 5
    rw [rotate_Cijkl_sum]
    simp only [cij2cijkl_apply M h, Fin.sum_univ_three, ij2I_00, ij2I_01, ij2I_02, ij2I_10, ij2I_11, ij2I_12, ij2I_20, ij2I_21, ij2I_22,
      rotateViaKMatrix, Matrix.mul_apply, Matrix.transpose_apply, Fin.sum_univ_six,
      kmatE00, kmatE01, kmatE02, kmatE03, kmatE04, kmatE05, kmatE10, kmatE11, kmatE12, kmatE13, kmatE14, kmatE15, kmatE20, kmatE21, kmatE22, kmatE23, kmatE24, kmatE25, kmatE30, kmatE31, kmatE32, kmatE33, kmatE34, kmatE35, kmatE40, kmatE41, kmatE42, kmatE43, kmatE44, kmatE45, kmatE50, kmatE51, kmatE52, kmatE53, kmatE54, kmatE55,
      h 1 0, h 2 0, h 2 1, h 3 0, h 3 1, h 3 2, h 4 0, h 4 1, h 4 2, h 4 3, h 5 0, h 5 1, h 5 2, h 5 3, h 5 4]
    ring
  · show rotate_Cijkl (cij2cijkl M) R 2 2 0 0 = rotateViaKMatrix M R 2 0
    rw [rotate_Cijkl_sum]
    simp only [cij2cijkl_apply M h, Fin.sum_univ_three, ij2I_00, ij2I_01, ij2I_02, ij2I_10, ij2I_11, ij2I_12, ij2I_20, ij2I_21, ij2I_22,
      rotateViaKMatrix, Matrix.mul_apply, Matrix.transpose_apply, Fin.sum_univ_six,
      kmatE00, kmatE01, kmatE02, kmatE03, kmatE04, kmatE05, kmatE10, kmatE11, kmatE12, kmatE13, kmatE14, kmatE15, kmatE20, kmatE21, kmatE22, kmatE23, kmatE24, kmatE25, kmatE30, kmatE31, kmatE32, kmatE33, kmatE34, kmatE35, kmatE40, kmatE41, kmatE42, kmatE43, kmatE44, kmatE45, kmatE50, kmatE51, kmatE52, kmatE53, kmatE54, kmatE55,
      h 1 0, h 2 0, h 2 1, h 3 0, h 3 1, h 3 2, h 4 0, h 4 1, h 4 2, h 4 3, h 5 0, h 5 1, h 5 2, h 5 3, h 5 4]
    ring
  · show rotate_Cijkl (cij2cijkl M) R 2 2 1 1 = rotateViaKMatrix M R 2 1
    rw [rotate_Cijkl_sum]
    simp only [cij2cijkl_apply M h, Fin.sum_univ_three, ij2I_00, ij2I_01, ij2I_02, ij2I_10, ij2I_11, ij2I_12, ij2I_20, ij2I_21, ij2I_22,
      rotateViaKMatrix, Matrix.mul_apply, Matrix.transpose_apply, Fin.sum_univ_six,
      kmatE00, kmatE01, kmatE02, kmatE03, kmatE04, kmatE05, kmatE10, kmatE11, kmatE12, kmatE13, kmatE14, kmatE15, kmatE20, kmatE21, kmatE22, kmatE23, kmatE24, kmatE25, kmatE30, kmatE31, kmatE32, kmatE33, kmatE34, kmatE35, kmatE40, kmatE41, kmatE42, kmatE43, kmatE44, kmatE45, kmatE50, kmatE51, kmatE52, kmatE53, kmatE54, kmatE55,
      h 1 0, h 2 0, h 2 1, h 3 0, h 3 1, h 3 2, h 4 0, h 4 1, h 4 2, h 4 3, h 5 0, h 5 1, h 5 2, h 5 3, h 5 4]
    ring
  · show rotate_Cijkl (cij2cijkl M) R 2 2 2 2 = rotateViaKMatrix M R 2 2
    rw [rotate_Cijkl_sum]
    simp only [cij2cijkl_apply M h, Fin.sum_univ_three, ij2I_00, ij2I_01, ij2I_02, ij2I_10, ij2I_11, ij2I_12, ij2I_20, ij2I_21, ij2I_22,
      rotateViaKMatrix, Matrix.mul_apply, Matrix.transpose_apply, Fin.sum_univ_six,
      kmatE00, kmatE01, kmatE02, kmatE03, kmatE04, kmatE05, kmatE10, kmatE11, kmatE12, kmatE13, kmatE14, kmatE15, kmatE20, kmatE21, kmatE22, kmatE23, kmatE24, kmatE25, kmatE30, kmatE31, kmatE32, kmatE33, kmatE34, kmatE35, kmatE40, kmatE41, kmatE42, kmatE43, kmatE44, kmatE45, kmatE50, kmatE51, kmatE52, kmatE53, kmatE54, kmatE55,
      h 1 0, h 2 0, h 2 1, h 3 0, h 3 1, h 3 2, h 4 0, h 4 1, h 4 2, h 4 3, h 5 0, h 5 1, h 5 2, h 5 3, h 5 4]
    ring
  · show rotate_Cijkl (cij2cijkl M) R 2 2 2 1 = rotateViaKMatrix M R 2 3
    rw [rotate_Cijkl_sum]
    simp only [cij2cijkl_apply M h, Fin.sum_univ_three, ij2I_00, ij2I_01, ij2I_02, ij2I_10, ij2I_11, ij2I_12, ij2I_20, ij2I_21, ij2I_22,
      rotateViaKMatrix, Matrix.mul_apply, Matrix.transpose_apply, Fin.sum_univ_six,
      kmatE00, kmatE01, kmatE02, kmatE03, kmatE04, kmatE05, kmatE10, kmatE11, kmatE12, kmatE13, kmatE14, kmatE15, kmatE20, kmatE21, kmatE22, kmatE23, kmatE24, kmatE25, kmatE30, kmatE31, kmatE32, kmatE33, kmatE34, kmatE35, kmatE40, kmatE41, kmatE42, kmatE43, kmatE44, kmatE45, kmatE50, kmatE51, kmatE52, kmatE53, kmatE54, kmatE55,
      h 1 0, h 2 0, h 2 1, h 3 0, h 3 1, h 3 2, h 4 0, h 4 1, h 4 2, h 4 3, h 5 0, h 5 1, h 5 2, h 5 3, h 5 4]
    ring
  · show rotate_Cijkl (cij2cijkl M) R 2 2 2 0 = rotateViaKMatrix M R 2 4
    rw [rotate_Cijkl_sum]
    simp only [cij2cijkl_apply M h, Fin.sum_univ_three, ij2I_00, ij2I_01, ij2I_02, ij2I_10, ij2I_11, ij2I_12, ij2I_20, ij2I_21, ij2I_22,
      rotateViaKMatrix, Matrix.mul_apply, Matrix.transpose_apply, Fin.sum_univ_six,
      kmatE00, kmatE01, kmatE02, kmatE03, kmatE04, kmatE05, kmatE10, kmatE11, kmatE12, kmatE13, kmatE14, kmatE15, kmatE20, kmatE21, kmatE22, kmatE23, kmatE24, kmatE25, kmatE30, kmatE31, kmatE32, kmatE33, kmatE34, kmatE35, kmatE40, kmatE41, kmatE42, kmatE43, kmatE44, kmatE45, kmatE50, kmatE51, kmatE52, kmatE53, kmatE54, kmatE55,
      h 1 0, h 2 0, h 2 1, h 3 0, h 3 1, h 3 2, h 4 0, h 4 1, h 4 2, h 4 3, h 5 0, h 5 1, h 5 2, h 5 3, h 5 4]
    ring
  · show rotate_Cijkl (cij2cijkl M) R 2 2 1 0 = rotateViaKMatrix M R 2 5
    rw [rotate_Cijkl_sum]
    simp only [cij2cijkl_apply M h, Fin.sum_univ_three, ij2I_00, ij2I_01, ij2I_02, ij2I_10, ij2I_11, ij2I_12, ij2I_20, ij2I_21, ij2I_22,
      rotateViaKMatrix, Matrix.mul_apply, Matrix.transpose_apply, Fin.sum_univ_six,
      kmatE00, kmatE01, kmatE02, kmatE03, kmatE04, kmatE05, kmatE10, kmatE11, kmatE12, kmatE13, kmatE14, kmatE15, kmatE20, kmatE21, kmatE22, kmatE23, kmatE24, kmatE25, kmatE30, kmatE31, kmatE32, kmatE33, kmatE34, kmatE35, kmatE40, kmatE41, kmatE42, kmatE43, kmatE44, kmatE45, kmatE50, kmatE51, kmatE52, kmatE53, kmatE54, kmatE55,
      h 1 0, h 2 0, h 2 1, h 3 0, h 3 1, h 3 2, h 4 0, h 4 1, h 4 2, h 4 3, h 5 0, h 5 1, h 5 2, h 5 3, h 5 4]
    ring
  · show rotate_Cijkl (cij2cijkl M) R 2 1 0 0 = rotateViaKMatrix M R 3 0
    rw [rotate_Cijkl_sum]
    simp only [cij2cijkl_apply M h, Fin.sum_univ_three, ij2I_00, ij2I_01, ij2I_02, ij2I_10, ij2I_11, ij2I_12, ij2I_20, ij2I_21, ij2I_22,
      rotateViaKMatrix, Matrix.mul_apply, Matrix.transpose_apply, Fin.sum_univ_six,
      kmatE00, kmatE01, kmatE02, kmatE03, kmatE04, kmatE05, kmatE10, kmatE11, kmatE12, kmatE13, kmatE14, kmatE15, kmatE20, kmatE21, kmatE22, kmatE23, kmatE24, kmatE25, kmatE30, kmatE31, kmatE32, kmatE33, kmatE34, kmatE35, kmatE40, kmatE41, kmatE42, kmatE43, kmatE44, kmatE45, kmatE50, kmatE51, kmatE52, kmatE53, kmatE54, kmatE55,
      h 1 0, h 2 0, h 2 1, h 3 0, h 3 1, h 3 2, h 4 0, h 4 1, h 4 2, h 4 3, h 5 0, h 5 1, h 5 2, h 5 3, h 5 4]
    ring
  · show rotate_Cijkl (cij2cijkl M) R 2 1 1 1 = rotateViaKMatrix M R 3 1
    rw [rotate_Cijkl_sum]
    simp only [cij2cijkl_apply M h, Fin.sum_univ_three, ij2I_00, ij2I_01, ij2I_02, ij2I_10, ij2I_11, ij2I_12, ij2I_20, ij2I_21, ij2I_22,
      rotateViaKMatrix, Matrix.mul_apply, Matrix.transpose_apply, Fin.sum_univ_six,
      kmatE00, kmatE01, kmatE02, kmatE03, kmatE04, kmatE05, kmatE10, kmatE11, kmatE12, kmatE13, kmatE14, kmatE15, kmatE20, kmatE21, kmatE22, kmatE23, kmatE24, kmatE25, kmatE30, kmatE31, kmatE32, kmatE33, kmatE34, kmatE35, kmatE40, kmatE41, kmatE42, kmatE43, kmatE44, kmatE45, kmatE50, kmatE51, kmatE52, kmatE53, kmatE54, kmatE55,
      h 1 0, h 2 0, h 2 1, h 3 0, h 3 1, h 3 2, h 4 0, h 4 1, h 4 2, h 4 3, h 5 0, h 5 1, h 5 2, h 5 3, h 5 4]
    ring
  · show rotate_Cijkl (cij2cijkl M) R 2 1 2 2 = rotateViaKMatrix M R 3 2
    rw [rotate_Cijkl_sum]
    simp only [cij2cijkl_apply M h, Fin.sum_univ_three, ij2I_00, ij2I_01, ij2I_02, ij2I_10, ij2I_11, ij2I_12, ij2I_20, ij2I_21, ij2I_22,
      rotateViaKMatrix, Matrix.mul_apply, Matrix.transpose_apply, Fin.sum_univ_six,
      kmatE00, kmatE01, kmatE02, kmatE03, kmatE04, kmatE05, kmatE10, kmatE11, kmatE12, kmatE13, kmatE14, kmatE15, kmatE20, kmatE21, kmatE22, kmatE23, kmatE24, kmatE25, kmatE30, kmatE31, kmatE32, kmatE33, kmatE34, kmatE35, kmatE40, kmatE41, kmatE42, kmatE43, kmatE44, kmatE45, kmatE50, kmatE51, kmatE52, kmatE53, kmatE54, kmatE55,
      h 1 0, h 2 0, h 2 1, h 3 0, h 3 1, h 3 2, h 4 0, h 4 1, h 4 2, h 4 3, h 5 0, h 5 1, h 5 2, h 5 3, h 5 4]
    ring
  · show rotate_Cijkl (cij2cijkl M) R 2 1 2 1 = rotateViaKMatrix M R 3 3
    rw [rotate_Cijkl_sum]
    simp only [cij2cijkl_apply M h, Fin.sum_univ_three, ij2I_00, ij2I_01, ij2I_02, ij2I_10, ij2I_11, ij2I_12, ij2I_20, ij2I_21, ij2I_22,
      rotateViaKMatrix, Matrix.mul_apply, Matrix.transpose_apply, Fin.sum_univ_six,
      kmatE00, kmatE01, kmatE02, kmatE03, kmatE04, kmatE05, kmatE10, kmatE11, kmatE12, kmatE13, kmatE14, kmatE15, kmatE20, kmatE21, kmatE22, kmatE23, kmatE24, kmatE25, kmatE30, kmatE31, kmatE32, kmatE33, kmatE34, kmatE35, kmatE40, kmatE41, kmatE42, kmatE43, kmatE44, kmatE45, kmatE50, kmatE51, kmatE52, kmatE53, kmatE54, kmatE55,
      h 1 0, h 2 0, h 2 1, h 3 0, h 3 1, h 3 2, h 4 0, h 4 1, h 4 2, h 4 3, h 5 0, h 5 1, h 5 2, h 5 3, h 5 4]
    ring
  · show rotate_Cijkl (cij2cijkl M) R 2 1 2 0 = rotateViaKMatrix M R 3 4
    rw [rotate_Cijkl_sum]
    simp only [cij2cijkl_apply M h, Fin.sum_univ_three, ij2I_00, ij2I_01, ij2I_02, ij2I_10, ij2I_11, ij2I_12, ij2I_20, ij2I_21, ij2I_22,
      rotateViaKMatrix, Matrix.mul_apply, Matrix.transpose_apply, Fin.sum_univ_six,
      kmatE00, kmatE01, kmatE02, kmatE03, kmatE04, kmatE05, kmatE10, kmatE11, kmatE12, kmatE13, kmatE14, kmatE15, kmatE20, kmatE21, kmatE22, kmatE23, kmatE24, kmatE25, kmatE30, kmatE31, kmatE32, kmatE33, kmatE34, kmatE35, kmatE40, kmatE41, kmatE42, kmatE43, kmatE44, kmatE45, kmatE50, kmatE51, kmatE52, kmatE53, kmatE54, kmatE55,
      h 1 0, h 2 0, h 2 1, h 3 0, h 3 1, h 3 2, h 4 0, h 4 1, h 4 2, h 4 3, h 5 0, h 5 1, h 5 2, h 5 3, h 5 4]
    ring
  · show rotate_Cijkl (cij2cijkl M) R 2 1 1 0 = rotateViaKMatrix M R 3 5
    rw [rotate_Cijkl_sum]
    simp only [cij2cijkl_apply M h, Fin.sum_univ_three, ij2I_00, ij2I_01, ij2I_02, ij2I_10, ij2I_11, ij2I_12, ij2I_20, ij2I_21, ij2I_22,
      rotateViaKMatrix, Matrix.mul_apply, Matrix.transpose_apply, Fin.sum_univ_six,
      kmatE00, kmatE01, kmatE02, kmatE03, kmatE04, kmatE05, kmatE10, kmatE11, kmatE12, kmatE13, kmatE14, kmatE15, kmatE20, kmatE21, kmatE22, kmatE23, kmatE24, kmatE25, kmatE30, kmatE31, kmatE32, kmatE33, kmatE34, kmatE35, kmatE40, kmatE41, kmatE42, kmatE43, kmatE44, kmatE45, kmatE50, kmatE51, kmatE52, kmatE53, kmatE54, kmatE55,
      h 1 0, h 2 0, h 2 1, h 3 0, h 3 1, h 3 2, h 4 0, h 4 1, h 4 2, h 4 3, h 5 0, h 5 1, h 5 2, h 5 3, h 5 4]
    ring
  · show rotate_Cijkl (cij2cijkl M) R 2 0 0 0 = rotateViaKMatrix M R 4 0
    rw [rotate_Cijkl_sum]
    simp only [cij2cijkl_apply M h, Fin.sum_univ_three, ij2I_00, ij2I_01, ij2I_02, ij2I_10, ij2I_11, ij2I_12, ij2I_20, ij2I_21, ij2I_22,
      rotateViaKMatrix, Matrix.mul_apply, Matrix.transpose_apply, Fin.sum_univ_six,
      kmatE00, kmatE01, kmatE02, kmatE03, kmatE04, kmatE05, kmatE10, kmatE11, kmatE12, kmatE13, kmatE14, kmatE15, kmatE20, kmatE21, kmatE22, kmatE23, kmatE24, kmatE25, kmatE30, kmatE31, kmatE32, kmatE33, kmatE34, kmatE35, kmatE40, kmatE41, kmatE42, kmatE43, kmatE44, kmatE45, kmatE50, kmatE51, kmatE52, kmatE53, kmatE54, kmatE55,
      h 1 0, h 2 0, h 2 1, h 3 0, h 3 1, h 3 2, h 4 0, h 4 1, h 4 2, h 4 3, h 5 0, h 5 1, h 5 2, h 5 3, h 5 4]
    ring
  · show rotate_Cijkl (cij2cijkl M) R 2 0 1 1 = rotateViaKMatrix M R 4 1
    rw [rotate_Cijkl_sum]
    simp only [cij2cijkl_apply M h, Fin.sum_univ_three, ij2I_00, ij2I_01, ij2I_02, ij2I_10, ij2I_11, ij2I_12, ij2I_20, ij2I_21, ij2I_22,
      rotateViaKMatrix, Matrix.mul_apply, Matrix.transpose_apply, Fin.sum_univ_six,
      kmatE00, kmatE01, kmatE02, kmatE03, kmatE04, kmatE05, kmatE10, kmatE11, kmatE12, kmatE13, kmatE14, kmatE15, kmatE20, kmatE21, kmatE22, kmatE23, kmatE24, kmatE25, kmatE30, kmatE31, kmatE32, kmatE33, kmatE34, kmatE35, kmatE40, kmatE41, kmatE42, kmatE43, kmatE44, kmatE45, kmatE50, kmatE51, kmatE52, kmatE53, kmatE54, kmatE55,
      h 1 0, h 2 0, h 2 1, h 3 0, h 3 1, h 3 2, h 4 0, h 4 1, h 4 2, h 4 3, h 5 0, h 5 1, h 5 2, h 5 3, h 5 4]
    ring
  · show rotate_Cijkl (cij2cijkl M) R 2 0 2 2 = rotateViaKMatrix M R 4 2
    rw [rotate_Cijkl_sum]
    simp only [cij2cijkl_apply M h, Fin.sum_univ_three, ij2I_00, ij2I_01, ij2I_02, ij2I_10, ij2I_11, ij2I_12, ij2I_20, ij2I_21, ij2I_22,
      rotateViaKMatrix, Matrix.mul_apply, Matrix.transpose_apply, Fin.sum_univ_six,
      kmatE00, kmatE01, kmatE02, kmatE03, kmatE04, kmatE05, kmatE10, kmatE11, kmatE12, kmatE13, kmatE14, kmatE15, kmatE20, kmatE21, kmatE22, kmatE23, kmatE24, kmatE25, kmatE30, kmatE31, kmatE32, kmatE33, kmatE34, kmatE35, kmatE40, kmatE41, kmatE42, kmatE43, kmatE44, kmatE45, kmatE50, kmatE51, kmatE52, kmatE53, kmatE54, kmatE55,
      h 1 0, h 2 0, h 2 1, h 3 0, h 3 1, h 3 2, h 4 0, h 4 1, h 4 2, h 4 3, h 5 0, h 5 1, h 5 2, h 5 3, h 5 4]
    ring
  · show rotate_Cijkl (cij2cijkl M) R 2 0 2 1 = rotateViaKMatrix M R 4 3
    rw [rotate_Cijkl_sum]
    simp only [cij2cijkl_apply M h, Fin.sum_univ_three, ij2I_00, ij2I_01, ij2I_02, ij2I_10, ij2I_11, ij2I_12, ij2I_20, ij2I_21, ij2I_22,
      rotateViaKMatrix, Matrix.mul_apply, Matrix.transpose_apply, Fin.sum_univ_six,
      kmatE00, kmatE01, kmatE02, kmatE03, kmatE04, kmatE05, kmatE10, kmatE11, kmatE12, kmatE13, kmatE14, kmatE15, kmatE20, kmatE21, kmatE22, kmatE23, kmatE24, kmatE25, kmatE30, kmatE31, kmatE32, kmatE33, kmatE34, kmatE35, kmatE40, kmatE41, kmatE42, kmatE43, kmatE44, kmatE45, kmatE50, kmatE51, kmatE52, kmatE53, kmatE54, kmatE55,
      h 1 0, h 2 0, h 2 1, h 3 0, h 3 1, h 3 2, h 4 0, h 4 1, h 4 2, h 4 3, h 5 0, h 5 1, h 5 2, h 5 3, h 5 4]
    ring
  · show rotate_Cijkl (cij2cijkl M) R 2 0 2 0 = rotateViaKMatrix M R 4 4
    rw [rotate_Cijkl_sum]
    simp only [cij2cijkl_apply M h, Fin.sum_univ_three, ij2I_00, ij2I_01, ij2I_02, ij2I_10, ij2I_11, ij2I_12, ij2I_20, ij2I_21, ij2I_22,
      rotateViaKMatrix, Matrix.mul_apply, Matrix.transpose_apply, Fin.sum_univ_six,
      kmatE00, kmatE01, kmatE02, kmatE03, kmatE04, kmatE05, kmatE10, kmatE11, kmatE12, kmatE13, kmatE14, kmatE15, kmatE20, kmatE21, kmatE22, kmatE23, kmatE24, kmatE25, kmatE30, kmatE31, kmatE32, kmatE33, kmatE34, kmatE35, kmatE40, kmatE41, kmatE42, kmatE43, kmatE44, kmatE45, kmatE50, kmatE51, kmatE52, kmatE53, kmatE54, kmatE55,
      h 1 0, h 2 0, h 2 1, h 3 0, h 3 1, h 3 2, h 4 0, h 4 1, h 4 2, h 4 3, h 5 0, h 5 1, h 5 2, h 5 3, h 5 4]
    ring
  · show rotate_Cijkl (cij2cijkl M) R 2 0 1 0 = rotateViaKMatrix M R 4 5
    rw [rotate_Cijkl_sum]
    simp only [cij2cijkl_apply M h, Fin.sum_univ_three, ij2I_00, ij2I_01, ij2I_02, ij2I_10, ij2I_11, ij2I_12, ij2I_20, ij2I_21, ij2I_22,
      rotateViaKMatrix, Matrix.mul_apply, Matrix.transpose_apply, Fin.sum_univ_six,
      kmatE00, kmatE01, kmatE02, kmatE03, kmatE04, kmatE05, kmatE10, kmatE11, kmatE12, kmatE13, kmatE14, kmatE15, kmatE20, kmatE21, kmatE22, kmatE23, kmatE24, kmatE25, kmatE30, kmatE31, kmatE32, kmatE33, kmatE34, kmatE35, kmatE40, kmatE41, kmatE42, kmatE43, kmatE44, kmatE45, kmatE50, kmatE51, kmatE52, kmatE53, kmatE54, kmatE55,
      h 1 0, h 2 0, h 2 1, h 3 0, h 3 1, h 3 2, h 4 0, h 4 1, h 4 2, h 4 3, h 5 0, h 5 1, h 5 2, h 5 3, h 5 4]
    ring
  · show rotate_Cijkl (cij2cijkl M) R 1 0 0 0 = rotateViaKMatrix M R 5 0
    rw [rotate_Cijkl_sum]
    simp only [cij2cijkl_apply M h, Fin.sum_univ_three, ij2I_00, ij2I_01, ij2I_02, ij2I_10, ij2I_11, ij2I_12, ij2I_20, ij2I_21, ij2I_22,
      rotateViaKMatrix, Matrix.mul_apply, Matrix.transpose_apply, Fin.sum_univ_six,
      kmatE00, kmatE01, kmatE02, kmatE03, kmatE04, kmatE05, kmatE10, kmatE11, kmatE12, kmatE13, kmatE14, kmatE15, kmatE20, kmatE21, kmatE22, kmatE23, kmatE24, kmatE25, kmatE30, kmatE31, kmatE32, kmatE33, kmatE34, kmatE35, kmatE40, kmatE41, kmatE42, kmatE43, kmatE44, kmatE45, kmatE50, kmatE51, kmatE52, kmatE53, kmatE54, kmatE55,
      h 1 0, h 2 0, h 2 1, h 3 0, h 3 1, h 3 2, h 4 0, h 4 1, h 4 2, h 4 3, h 5 0, h 5 1, h 5 2, h 5 3, h 5 4]
    ring
  · show rotate_Cijkl (cij2cijkl M) R 1 0 1 1 = rotateViaKMatrix M R 5 1
    rw [rotate_Cijkl_sum]
    simp only [cij2cijkl_apply M h, Fin.sum_univ_three, ij2I_00, ij2I_01, ij2I_02, ij2I_10, ij2I_11, ij2I_12, ij2I_20, ij2I_21, ij2I_22,
      rotateViaKMatrix, Matrix.mul_apply, Matrix.transpose_apply, Fin.sum_univ_six,
      kmatE00, kmatE01, kmatE02, kmatE03, kmatE04, kmatE05, kmatE10, kmatE11, kmatE12, kmatE13, kmatE14, kmatE15, kmatE20, kmatE21, kmatE22, kmatE23, kmatE24, kmatE25, kmatE30, kmatE31, kmatE32, kmatE33, kmatE34, kmatE35, kmatE40, kmatE41, kmatE42, kmatE43, kmatE44, kmatE45, kmatE50, kmatE51, kmatE52, kmatE53, kmatE54, kmatE55,
      h 1 0, h 2 0, h 2 1, h 3 0, h 3 1, h 3 2, h 4 0, h 4 1, h 4 2, h 4 3, h 5 0, h 5 1, h 5 2, h 5 3, h 5 4]
    ring
  · show rotate_Cijkl (cij2cijkl M) R 1 0 2 2 = rotateViaKMatrix M R 5 2
    rw [rotate_Cijkl_sum]
    simp only [cij2cijkl_apply M h, Fin.sum_univ_three, ij2I_00, ij2I_01, ij2I_02, ij2I_10, ij2I_11, ij2I_12, ij2I_20, ij2I_21, ij2I_22,
      rotateViaKMatrix, Matrix.mul_apply, Matrix.transpose_apply, Fin.sum_univ_six,
      kmatE00, kmatE01, kmatE02, kmatE03, kmatE04, kmatE05, kmatE10, kmatE11, kmatE12, kmatE13, kmatE14, kmatE15, kmatE20, kmatE21, kmatE22, kmatE23, kmatE24, kmatE25, kmatE30, kmatE31, kmatE32, kmatE33, kmatE34, kmatE35, kmatE40, kmatE41, kmatE42, kmatE43, kmatE44, kmatE45, kmatE50, kmatE51, kmatE52, kmatE53, kmatE54, kmatE55,
      h 1 0, h 2 0, h 2 1, h 3 0, h 3 1, h 3 2, h 4 0, h 4 1, h 4 2, h 4 3, h 5 0, h 5 1, h 5 2, h 5 3, h 5 4]
    ring
  · show rotate_Cijkl (cij2cijkl M) R 1 0 2 1 = rotateViaKMatrix M R 5 3
    rw [rotate_Cijkl_sum]
    simp only [cij2cijkl_apply M h, Fin.sum_univ_three, ij2I_00, ij2I_01, ij2I_02, ij2I_10, ij2I_11, ij2I_12, ij2I_20, ij2I_21, ij2I_22,
      rotateViaKMatrix, Matrix.mul_apply, Matrix.transpose_apply, Fin.sum_univ_six,
      kmatE00, kmatE01, kmatE02, kmatE03, kmatE04, kmatE05, kmatE10, kmatE11, kmatE12, kmatE13, kmatE14, kmatE15, kmatE20, kmatE21, kmatE22, kmatE23, kmatE24, kmatE25, kmatE30, kmatE31, kmatE32, kmatE33, kmatE34, kmatE35, kmatE40, kmatE41, kmatE42, kmatE43, kmatE44, kmatE45, kmatE50, kmatE51, kmatE52, kmatE53, kmatE54, kmatE55,
      h 1 0, h 2 0, h 2 1, h 3 0, h 3 1, h 3 2, h 4 0, h 4 1, h 4 2, h 4 3, h 5 0, h 5 1, h 5 2, h 5 3, h 5 4]
    ring
  · show rotate_Cijkl (cij2cijkl M) R 1 0 2 0 = rotateViaKMatrix M R 5 4
    rw [rotate_Cijkl_sum]
    simp only [cij2cijkl_apply M h, Fin.sum_univ_three, ij2I_00, ij2I_01, ij2I_02, ij2I_10, ij2I_11, ij2I_12, ij2I_20, ij2I_21, ij2I_22,
      rotateViaKMatrix, Matrix.mul_apply, Matrix.transpose_apply, Fin.sum_univ_six,
      kmatE00, kmatE01, kmatE02, kmatE03, kmatE04, kmatE05, kmatE10, kmatE11, kmatE12, kmatE13, kmatE14, kmatE15, kmatE20, kmatE21, kmatE22, kmatE23, kmatE24, kmatE25, kmatE30, kmatE31, kmatE32, kmatE33, kmatE34, kmatE35, kmatE40, kmatE41, kmatE42, kmatE43, kmatE44, kmatE45, kmatE50, kmatE51, kmatE52, kmatE53, kmatE54, kmatE55,
      h 1 0, h 2 0, h 2 1, h 3 0, h 3 1, h 3 2, h 4 0, h 4 1, h 4 2, h 4 3, h 5 0, h 5 1, h 5 2, h 5 3, h 5 4]
    ring
  · show rotate_Cijkl (cij2cijkl M) R 1 0 1 0 = rotateViaKMatrix M R 5 5
    rw [rotate_Cijkl_sum]
    simp only [cij2cijkl_apply M h, Fin.sum_univ_three, ij2I_00, ij2I_01, ij2I_02, ij2I_10, ij2I_11, ij2I_12, ij2I_20, ij2I_21, ij2I_22,
      rotateViaKMatrix, Matrix.mul_apply, Matrix.transpose_apply, Fin.sum_univ_six,
      kmatE00, kmatE01, kmatE02, kmatE03, kmatE04, kmatE05, kmatE10, kmatE11, kmatE12, kmatE13, kmatE14, kmatE15, kmatE20, kmatE21, kmatE22, kmatE23, kmatE24, kmatE25, kmatE30, kmatE31, kmatE32, kmatE33, kmatE34, kmatE35, kmatE40, kmatE41, kmatE42, kmatE43, kmatE44, kmatE45, kmatE50, kmatE51, kmatE52, kmatE53, kmatE54, kmatE55,
      h 1 0, h 2 0, h 2 1, h 3 0, h 3 1, h 3 2, h 4 0, h 4 1, h 4 2, h 4 3, h 5 0, h 5 1, h 5 2, h 5 3, h 5 4]
    ring

/-!
Claim theorems.
-/

/-- C1: round-trip of the notation converter: for every symmetric 6x6 matrix
M, cijkl2cij (cij2cijkl M) = M holds with exact equality in every entry. -/
theorem C1_roundtrip (M : Mat6) (h : ∀ i j, M i j = M j i) :
    cijkl2cij (cij2cijkl M) = M := by
  ext I J
  rw [cijkl2cij_apply, cij2cijkl_apply M h, ij2I_rep2I, ij2I_rep2I]

/-- C1 witness: the round trip evaluated at the symmetric matrix 1. -/
theorem C1_roundtrip_witness :
    (∀ i j, (1 : Mat6) i j = (1 : Mat6) j i)
    ∧ cijkl2cij (cij2cijkl (1 : Mat6)) = 1 :=
  ⟨one6_symm, C1_roundtrip 1 one6_symm⟩

/-- C5: for every symmetric 6x6 matrix M the conversion cij2cijkl follows the
single index rule T[i,j,k,l] = M[ij2I(i,j), ij2I(k,l)] at all 81 quadruples,
and consequently the output tensor has the major symmetry T[i,j,k,l] =
T[k,l,i,j] and the minor symmetries T[i,j,k,l] = T[j,i,k,l] = T[i,j,l,k]. -/
theorem C5_index_rule (M : Mat6) (h : ∀ i j, M i j = M j i) :
    (∀ i j k l, cij2cijkl M i j k l = M (ij2I i j) (ij2I k l))
    ∧ (∀ i j k l, cij2cijkl M i j k l = cij2cijkl M k l i j)
    ∧ (∀ i j k l, cij2cijkl M i j k l = cij2cijkl M j i k l
        ∧ cij2cijkl M i j k l = cij2cijkl M i j l k) := by
  refine ⟨cij2cijkl_apply M h, ?_, ?_⟩
  · intro i j k l
    rw [cij2cijkl_apply M h, cij2cijkl_apply M h]
    exact h _ _
  · intro i j k l
    constructor
    · rw [cij2cijkl_apply M h, cij2cijkl_apply M h, ij2I_symm i j]
    · rw [cij2cijkl_apply M h, cij2cijkl_apply M h, ij2I_symm k l]

/-- C5 witness: the index rule and symmetries evaluated at the symmetric
matrix 1. -/
theorem C5_index_rule_witness :
    (∀ i j, (1 : Mat6) i j = (1 : Mat6) j i)
    ∧ ((∀ i j k l, cij2cijkl (1 : Mat6) i j k l = (1 : Mat6) (ij2I i j) (ij2I k l))
      ∧ (∀ i j k l, cij2cijkl (1 : Mat6) i j k l = cij2cijkl (1 : Mat6) k l i j)
      ∧ (∀ i j k l, cij2cijkl (1 : Mat6) i j k l = cij2cijkl (1 : Mat6) j i k l
          ∧ cij2cijkl (1 : Mat6) i j k l = cij2cijkl (1 : Mat6) i j l k)) :=
  ⟨one6_symm, C5_index_rule 1 one6_symm⟩

/-- C2 counterexample: at the concrete tensor cexT, matrix cexR and indices
(1,1,1,1), the code's rotate_Cijkl does not equal the claimed contraction
with R applied through its first index of each pair,
sum R[i,p] R[j,q] R[k,r] R[l,s] T[p,q,r,s]: the code yields 1 there while
the claimed formula yields 0. -/
theorem C2_counterexample :
    rotate_Cijkl cexT cexR 1 1 1 1
      ≠ ∑ p, ∑ q, ∑ r, ∑ s,
          cexR 1 p * cexR 1 q * cexR 1 r * cexR 1 s * cexT p q r s := by
  rw [rotate_Cijkl_sum]
  simp [cexT, cexR, Fin.sum_univ_three, Matrix.of_apply]

/-- C2 (amended): rotate_Cijkl implements the quadruple contraction against
the transposed rotation: every output entry (i,j,k,l) equals
sum over p,q,r,s of R[p,i] R[q,j] R[r,k] R[s,l] T[p,q,r,s]. -/
theorem C2_contraction_amended (T : Tens4) (R : Mat3) (i j k l : Fin 3) :
    rotate_Cijkl T R i j k l
      = ∑ p, ∑ q, ∑ r, ∑ s, R p i * R q j * R r k * R s l * T p q r s :=
  rotate_Cijkl_sum T R i j k l

/-- C9: for all angles and every order that is a permutation of (0,1,2), the
composed rotation matrix R satisfies R * R-transpose = 1 and det R = 1
exactly, over real arithmetic. -/
theorem C9_rotation_orthogonal (alpha beta gamma : ℝ) (order : Fin 3 → Fin 3)
    (hperm : Function.Bijective order) :
    rotation_matrix alpha beta gamma order
        * (rotation_matrix alpha beta gamma order)ᵀ = 1
    ∧ (rotation_matrix alpha beta gamma order).det = 1 := by
  constructor
  · exact mul_transpose_cancel (rot_elems_mul_transpose alpha beta gamma (order 2))
      (mul_transpose_cancel (rot_elems_mul_transpose alpha beta gamma (order 1))
        (rot_elems_mul_transpose alpha beta gamma (order 0)))
  · simp [rotation_matrix, Matrix.det_mul, rot_elems_det]

/-- C9 witness: orthogonality and unit determinant at angles 0 with the
default (identity) order, which is a permutation. -/
theorem C9_rotation_orthogonal_witness :
    Function.Bijective (id : Fin 3 → Fin 3)
    ∧ (rotation_matrix 0 0 0 id * (rotation_matrix 0 0 0 id)ᵀ = 1
      ∧ (rotation_matrix 0 0 0 id).det = 1) :=
  ⟨Function.bijective_id, C9_rotation_orthogonal 0 0 0 id Function.bijective_id⟩

/-- C3 (code defect): on every ndarray of shape (3,3,3,3) — exactly the
tensor input the entry point documents — rotate_C raises the TypeError
produced by `len(C.shape == 4)` instead of rotating via the tensor path. -/
theorem C3_tensor_input_raises (C : NDArray) (alpha beta gamma : ℝ)
    (order : Fin 3 → Fin 3) (h : C.shape = [3, 3, 3, 3]) :
    rotate_C C alpha beta gamma order
      = Except.error (PyErr.typeError "object of type bool has no len") := by
  have hcond : ¬(C.shape.length = 2 ∧ C.shape.headI = 6) := by
    rw [h]; simp
  simp [rotate_C, hcond]

/-- C3 witness: the failure evaluated on a concrete all-zero tensor array. -/
theorem C3_tensor_input_raises_witness :
    cexArr.shape = [3, 3, 3, 3]
    ∧ rotate_C cexArr 0 0 0 id
        = Except.error (PyErr.typeError "object of type bool has no len") :=
  ⟨rfl, C3_tensor_input_raises cexArr 0 0 0 id rfl⟩

/-- C6: backus_monoclin fails with an error — producing no matrix — exactly
when the lists have mismatched lengths, are empty, or the fraction sum is
farther than eps from 1; otherwise it returns a 6x6 matrix.  Both validation
branches precede the construction of the output value. -/
theorem C6_validation (f : List ℝ) (c : List Mat6) :
    (∃ e, backus_monoclin f c = Except.error e)
      ↔ (c.length ≠ f.length ∨ f = [] ∨ |f.sum - 1| > eps) := by
  have heps : eps = 0 := by norm_num [eps]
  unfold backus_monoclin
  by_cases h1 : c.length ≠ f.length
  · simp [h1]
  · by_cases h2 : |f.sum - 1| > eps
    · simp [h1, h2]
    · have hf : f ≠ [] := by
        intro hfe
        apply h2
        rw [hfe]
        simp [heps]
      simp [h1, h2, hf]

/-- C7: for every valid input the matrix returned by backus_monoclin is
exactly symmetric and its off-monoclinic entries, together with their
transposes, are exactly zero. -/
theorem C7_output_pattern (f : List ℝ) (c : List Mat6)
    (hlen : c.length = f.length) (hne : f ≠ []) (hsum : |f.sum - 1| ≤ eps)
    (h44 : ∀ cc ∈ c, cc 3 3 ≠ 0)
    (hA : ∀ cc ∈ c, cc 2 2 * cc 4 4 - cc 2 4 ^ 2 ≠ 0) :
    ∃ m, backus_monoclin f c = Except.ok m
      ∧ (∀ i j, m i j = m j i)
      ∧ m 0 3 = 0 ∧ m 0 5 = 0 ∧ m 1 3 = 0 ∧ m 1 5 = 0
      ∧ m 2 3 = 0 ∧ m 2 5 = 0 ∧ m 3 4 = 0 ∧ m 4 5 = 0
      ∧ m 3 0 = 0 ∧ m 5 0 = 0 ∧ m 3 1 = 0 ∧ m 5 1 = 0
      ∧ m 3 2 = 0 ∧ m 5 2 = 0 ∧ m 4 3 = 0 ∧ m 5 4 = 0 := by
  refine ⟨backus_core f c, ?_, ?_, rfl, rfl, rfl, rfl, rfl, rfl, rfl, rfl,
    rfl, rfl, rfl, rfl, rfl, rfl, rfl, rfl⟩
  · unfold backus_monoclin
    rw [if_neg (by simp [hlen]), if_neg (not_lt.mpr hsum)]
  · intro i j
    fin_cases i <;> fin_cases j <;> rfl

/-- C7 witness: the pattern evaluated on the single identity layer with
fraction one. -/
theorem C7_output_pattern_witness :
    ([(1 : Mat6)] : List Mat6).length = ([(1 : ℝ)] : List ℝ).length
    ∧ ([(1 : ℝ)] : List ℝ) ≠ []
    ∧ |([(1 : ℝ)] : List ℝ).sum - 1| ≤ eps
    ∧ (∀ cc ∈ ([(1 : Mat6)] : List Mat6), cc 3 3 ≠ 0)
    ∧ (∀ cc ∈ ([(1 : Mat6)] : List Mat6), cc 2 2 * cc 4 4 - cc 2 4 ^ 2 ≠ 0)
    ∧ ∃ m, backus_monoclin [(1 : ℝ)] [(1 : Mat6)] = Except.ok m
      ∧ (∀ i j, m i j = m j i)
      ∧ m 0 3 = 0 ∧ m 0 5 = 0 ∧ m 1 3 = 0 ∧ m 1 5 = 0
      ∧ m 2 3 = 0 ∧ m 2 5 = 0 ∧ m 3 4 = 0 ∧ m 4 5 = 0
      ∧ m 3 0 = 0 ∧ m 5 0 = 0 ∧ m 3 1 = 0 ∧ m 5 1 = 0
      ∧ m 3 2 = 0 ∧ m 5 2 = 0 ∧ m 4 3 = 0 ∧ m 5 4 = 0 := by
  have h44 : ∀ cc ∈ ([(1 : Mat6)] : List Mat6), cc 3 3 ≠ 0 := by
    intro cc hcc
    rw [List.mem_singleton] at hcc
    subst hcc
    rw [Matrix.one_apply_eq]
    exact one_ne_zero
  have hA : ∀ cc ∈ ([(1 : Mat6)] : List Mat6), cc 2 2 * cc 4 4 - cc 2 4 ^ 2 ≠ 0 := by
    intro cc hcc
    rw [List.mem_singleton] at hcc
    subst hcc
    rw [Matrix.one_apply_eq, Matrix.one_apply_eq, Matrix.one_apply_ne (by decide)]
    norm_num
  exact ⟨rfl, by simp, by norm_num [eps], h44, hA,
    C7_output_pattern [(1 : ℝ)] [(1 : Mat6)] rfl (by simp) (by norm_num [eps]) h44 hA⟩

/-- C8: Backus single-layer degeneracy: for one layer of fraction 1 whose
symmetric matrix has the monoclinic zero pattern and nonzero c44 and
c33*c55 - c35^2, backus_monoclin returns the layer matrix unchanged. -/
theorem C8_single_layer (C : Mat6) (h : ∀ i j, C i j = C j i)
    (h03 : C 0 3 = 0) (h05 : C 0 5 = 0) (h13 : C 1 3 = 0) (h15 : C 1 5 = 0)
    (h23 : C 2 3 = 0) (h25 : C 2 5 = 0) (h34 : C 3 4 = 0) (h45 : C 4 5 = 0)
    (h44 : C 3 3 ≠ 0) (hA : C 2 2 * C 4 4 - C 2 4 ^ 2 ≠ 0) :
    backus_monoclin [1] [C] = Except.ok C := by
  have l1 : Backus.A [C] = [C 2 2 * C 4 4 - C 2 4 ^ 2] := by
    simp [Backus.A, Backus.asub, Backus.amul, Backus.asq, Backus.c33, Backus.c55,
      Backus.c35, Backus.get, List.zipWith_cons_cons]
  have e33 : Backus.av [1] (Backus.adiv (Backus.c33 [C]) (Backus.A [C]))
      = C 2 2 / (C 2 2 * C 4 4 - C 2 4 ^ 2) := by
    rw [l1]
    simp [Backus.av, Backus.adiv, Backus.c33, Backus.get, List.zipWith_cons_cons]
  have e55 : Backus.av [1] (Backus.adiv (Backus.c55 [C]) (Backus.A [C]))
      = C 4 4 / (C 2 2 * C 4 4 - C 2 4 ^ 2) := by
    rw [l1]
    simp [Backus.av, Backus.adiv, Backus.c55, Backus.get, List.zipWith_cons_cons]
  have e35 : Backus.av [1] (Backus.adiv (Backus.c35 [C]) (Backus.A [C]))
      = C 2 4 / (C 2 2 * C 4 4 - C 2 4 ^ 2) := by
    rw [l1]
    simp [Backus.av, Backus.adiv, Backus.c35, Backus.get, List.zipWith_cons_cons]
  have eAA : Backus.AA [1] [C] = C 2 2 * C 4 4 - C 2 4 ^ 2 := by
    have key : C 2 2 / (C 2 2 * C 4 4 - C 2 4 ^ 2) * (C 4 4 / (C 2 2 * C 4 4 - C 2 4 ^ 2))
        - (C 2 4 / (C 2 2 * C 4 4 - C 2 4 ^ 2)) ^ 2
        = 1 / (C 2 2 * C 4 4 - C 2 4 ^ 2) := by
      field_simp
      ring
    simp only [Backus.AA]
    rw [e33, e55, e35, key, one_div, inv_inv]
  have eB1 : Backus.av [1] (Backus.B1 [C])
      = (C 0 2 * C 4 4 - C 0 4 * C 2 4) / (C 2 2 * C 4 4 - C 2 4 ^ 2) := by
    simp only [Backus.B1]
    rw [l1]
    simp [Backus.av, Backus.adiv, Backus.asub, Backus.amul, Backus.c13, Backus.c15,
      Backus.c35, Backus.c55, Backus.get, List.zipWith_cons_cons]
  have eB2 : Backus.av [1] (Backus.B2 [C])
      = (C 0 4 * C 2 2 - C 0 2 * C 2 4) / (C 2 2 * C 4 4 - C 2 4 ^ 2) := by
    simp only [Backus.B2]
    rw [l1]
    simp [Backus.av, Backus.adiv, Backus.asub, Backus.amul, Backus.c13, Backus.c15,
      Backus.c33, Backus.c35, Backus.get, List.zipWith_cons_cons]
  have eB3 : Backus.av [1] (Backus.B3 [C])
      = (C 1 2 * C 4 4 - C 1 4 * C 2 4) / (C 2 2 * C 4 4 - C 2 4 ^ 2) := by
    simp only [Backus.B3]
    rw [l1]
    simp [Backus.av, Backus.adiv, Backus.asub, Backus.amul, Backus.c23, Backus.c25,
      Backus.c35, Backus.c55, Backus.get, List.zipWith_cons_cons]
  have eB4 : Backus.av [1] (Backus.B4 [C])
      = (C 1 4 * C 2 2 - C 1 2 * C 2 4) / (C 2 2 * C 4 4 - C 2 4 ^ 2) := by
    simp only [Backus.B4]
    rw [l1]
    simp [Backus.av, Backus.adiv, Backus.asub, Backus.amul, Backus.c23, Backus.c25,
      Backus.c33, Backus.c35, Backus.get, List.zipWith_cons_cons]
  have e44 : Backus.av [1] (Backus.ainv (Backus.c44 [C])) = (C 3 3)⁻¹ := by
    simp [Backus.av, Backus.ainv, Backus.c44, Backus.get, List.zipWith_cons_cons]
  have e46 : Backus.av [1] (Backus.adiv (Backus.c46 [C]) (Backus.c44 [C]))
      = C 3 5 / C 3 3 := by
    simp [Backus.av, Backus.adiv, Backus.c46, Backus.c44, Backus.get,
      List.zipWith_cons_cons]
  have e46sq : Backus.av [1] (Backus.adiv (Backus.asq (Backus.c46 [C])) (Backus.c44 [C]))
      = C 3 5 ^ 2 / C 3 3 := by
    simp [Backus.av, Backus.adiv, Backus.asq, Backus.c46, Backus.c44, Backus.get,
      List.zipWith_cons_cons]
  have ec11 : Backus.av [1] (Backus.c11 [C]) = C 0 0 := by
    simp [Backus.av, Backus.c11, Backus.get, List.zipWith_cons_cons]
  have ec22 : Backus.av [1] (Backus.c22 [C]) = C 1 1 := by
    simp [Backus.av, Backus.c22, Backus.get, List.zipWith_cons_cons]
  have ec12 : Backus.av [1] (Backus.c12 [C]) = C 0 1 := by
    simp [Backus.av, Backus.c12, Backus.get, List.zipWith_cons_cons]
  have ec66 : Backus.av [1] (Backus.c66 [C]) = C 5 5 := by
    simp [Backus.av, Backus.c66, Backus.get, List.zipWith_cons_cons]
  have v00 : Backus.ce00 [1] [C] = C 0 0 := by
    simp only [Backus.ce00, Backus.B5]
    rw [eAA, e33, e35, e55, eB1, eB2, ec11]
    simp only [Backus.B1, Backus.B2]
    rw [l1]
    simp [Backus.av, Backus.aadd, Backus.amul, Backus.adiv, Backus.asub, Backus.c13,
      Backus.c15, Backus.c33, Backus.c35, Backus.c55, Backus.get, List.zipWith_cons_cons]
    field_simp
    try ring
  have v11 : Backus.ce11 [1] [C] = C 1 1 := by
    simp only [Backus.ce11, Backus.B7]
    rw [eAA, e33, e35, e55, eB3, eB4, ec22]
    simp only [Backus.B3, Backus.B4]
    rw [l1]
    simp [Backus.av, Backus.aadd, Backus.amul, Backus.adiv, Backus.asub, Backus.c23,
      Backus.c25, Backus.c33, Backus.c35, Backus.c55, Backus.get, List.zipWith_cons_cons]
    field_simp
    try ring
  have v01 : Backus.ce01 [1] [C] = C 0 1 := by
    simp only [Backus.ce01, Backus.B6]
    rw [eAA, e33, e35, e55, eB1, eB2, eB3, eB4, ec12]
    simp only [Backus.B3, Backus.B4]
    rw [l1]
    simp [Backus.av, Backus.aadd, Backus.amul, Backus.adiv, Backus.asub, Backus.c13,
      Backus.c15, Backus.c23, Backus.c25, Backus.c33, Backus.c35, Backus.c55,
      Backus.get, List.zipWith_cons_cons]
    field_simp
    try ring
  have v22 : Backus.ce22 [1] [C] = C 2 2 := by
    simp only [Backus.ce22]
    rw [eAA, e33, mul_comm]
    exact div_mul_cancel₀ _ hA
  have v33 : Backus.ce33 [1] [C] = C 3 3 := by
    simp only [Backus.ce33]
    rw [e44, inv_inv]
  have v44 : Backus.ce44 [1] [C] = C 4 4 := by
    simp only [Backus.ce44]
    rw [eAA, e55, mul_comm]
    exact div_mul_cancel₀ _ hA
  have v24 : Backus.ce24 [1] [C] = C 2 4 := by
    simp only [Backus.ce24]
    rw [eAA, e35, mul_comm]
    exact div_mul_cancel₀ _ hA
  have v35 : Backus.ce35 [1] [C] = C 3 5 := by
    simp only [Backus.ce35]
    rw [e44, inv_inv, e46, mul_comm]
    exact div_mul_cancel₀ _ h44
  have v55 : Backus.ce55 [1] [C] = C 5 5 := by
    simp only [Backus.ce55]
    rw [e44, inv_inv, e46, e46sq, ec66]
    field_simp
    try ring
  have v02 : Backus.ce02 [1] [C] = C 0 2 := by
    simp only [Backus.ce02]
    rw [eAA, e33, e35, eB1, eB2]
    field_simp
    try ring
  have v04 : Backus.ce04 [1] [C] = C 0 4 := by
    simp only [Backus.ce04]
    rw [eAA, e35, e55, eB1, eB2]
    field_simp
    try ring
  have v12 : Backus.ce12 [1] [C] = C 1 2 := by
    simp only [Backus.ce12]
    rw [eAA, e33, e35, eB3, eB4]
    field_simp
    try ring
  have v14 : Backus.ce14 [1] [C] = C 1 4 := by
    simp only [Backus.ce14]
    rw [eAA, e35, e55, eB3, eB4]
    field_simp
    try ring
  unfold backus_monoclin
  rw [if_neg (by simp), if_neg (by norm_num [eps])]
  congr 1
  ext i j
  fin_cases i <;> fin_cases j
  · exact v00
  · exact v01
  · exact v02
  · exact h03.symm
  · exact v04
  · exact h05.symm
  · show backus_core [1] [C] 1 0 = C 1 0
    rw [h 1 0]
    exact v01
  · exact v11
  · exact v12
  · exact h13.symm
  · exact v14
  · exact h15.symm
  · show backus_core [1] [C] 2 0 = C 2 0
    rw [h 2 0]
    exact v02
  · show backus_core [1] [C] 2 1 = C 2 1
    rw [h 2 1]
    exact v12
  · exact v22
  · exact h23.symm
  · exact v24
  · exact h25.symm
  · show backus_core [1] [C] 3 0 = C 3 0
    rw [h 3 0]
    exact h03.symm
  · show backus_core [1] [C] 3 1 = C 3 1
    rw [h 3 1]
    exact h13.symm
  · show backus_core [1] [C] 3 2 = C 3 2
    rw [h 3 2]
    exact h23.symm
  · exact v33
  · exact h34.symm
  · exact v35
  · show backus_core [1] [C] 4 0 = C 4 0
    rw [h 4 0]
    exact v04
  · show backus_core [1] [C] 4 1 = C 4 1
    rw [h 4 1]
    exact v14
  · show backus_core [1] [C] 4 2 = C 4 2
    rw [h 4 2]
    exact v24
  · show backus_core [1] [C] 4 3 = C 4 3
    rw [h 4 3]
    exact h34.symm
  · exact v44
  · exact h45.symm
  · show backus_core [1] [C] 5 0 = C 5 0
    rw [h 5 0]
    exact h05.symm
  · show backus_core [1] [C] 5 1 = C 5 1
    rw [h 5 1]
    exact h15.symm
  · show backus_core [1] [C] 5 2 = C 5 2
    rw [h 5 2]
    exact h25.symm
  · show backus_core [1] [C] 5 3 = C 5 3
    rw [h 5 3]
    exact v35
  · show backus_core [1] [C] 5 4 = C 5 4
    rw [h 5 4]
    exact h45.symm
  · exact v55

/-- C8 witness: the single identity layer with fraction one is returned
unchanged. -/
theorem C8_single_layer_witness :
    (∀ i j, (1 : Mat6) i j = (1 : Mat6) j i)
    ∧ (1 : Mat6) 0 3 = 0 ∧ (1 : Mat6) 0 5 = 0 ∧ (1 : Mat6) 1 3 = 0
    ∧ (1 : Mat6) 1 5 = 0 ∧ (1 : Mat6) 2 3 = 0 ∧ (1 : Mat6) 2 5 = 0
    ∧ (1 : Mat6) 3 4 = 0 ∧ (1 : Mat6) 4 5 = 0
    ∧ (1 : Mat6) 3 3 ≠ 0 ∧ (1 : Mat6) 2 2 * (1 : Mat6) 4 4 - (1 : Mat6) 2 4 ^ 2 ≠ 0
    ∧ backus_monoclin [1] [(1 : Mat6)] = Except.ok 1 := by
  have z : ∀ i j : Fin 6, i ≠ j → (1 : Mat6) i j = 0 := fun i j hij =>
    Matrix.one_apply_ne hij
  have h44 : (1 : Mat6) 3 3 ≠ 0 := by
    rw [Matrix.one_apply_eq]; exact one_ne_zero
  have hA : (1 : Mat6) 2 2 * (1 : Mat6) 4 4 - (1 : Mat6) 2 4 ^ 2 ≠ 0 := by
    rw [Matrix.one_apply_eq, Matrix.one_apply_eq, Matrix.one_apply_ne (by decide)]
    norm_num
  exact ⟨one6_symm, z 0 3 (by decide), z 0 5 (by decide), z 1 3 (by decide),
    z 1 5 (by decide), z 2 3 (by decide), z 2 5 (by decide), z 3 4 (by decide),
    z 4 5 (by decide), h44, hA,
    C8_single_layer 1 one6_symm (z 0 3 (by decide)) (z 0 5 (by decide))
      (z 1 3 (by decide)) (z 1 5 (by decide)) (z 2 3 (by decide))
      (z 2 5 (by decide)) (z 3 4 (by decide)) (z 4 5 (by decide)) h44 hA⟩

/-- C10: backus_monoclin reads only the 13 monoclinic positions (0,0), (1,1),
(2,2), (3,3), (4,4), (5,5), (0,1), (0,2), (0,4), (1,2), (1,4), (2,4), (3,5)
of each layer matrix: two valid inputs with identical fractions whose layers
agree there produce identical outputs, whatever the remaining 23 entries are. -/
theorem C10_read_set (f : List ℝ) (c c' : List Mat6)
    (hlen : c.length = c'.length) (hflen : c.length = f.length)
    (hne : f ≠ []) (hsum : |f.sum - 1| ≤ eps)
    (hagree : ∀ (k : ℕ) (hk : k < c.length) (hk' : k < c'.length),
      (c.get ⟨k, hk⟩) 0 0 = (c'.get ⟨k, hk'⟩) 0 0
      ∧ (c.get ⟨k, hk⟩) 1 1 = (c'.get ⟨k, hk'⟩) 1 1
      ∧ (c.get ⟨k, hk⟩) 2 2 = (c'.get ⟨k, hk'⟩) 2 2
      ∧ (c.get ⟨k, hk⟩) 3 3 = (c'.get ⟨k, hk'⟩) 3 3
      ∧ (c.get ⟨k, hk⟩) 4 4 = (c'.get ⟨k, hk'⟩) 4 4
      ∧ (c.get ⟨k, hk⟩) 5 5 = (c'.get ⟨k, hk'⟩) 5 5
      ∧ (c.get ⟨k, hk⟩) 0 1 = (c'.get ⟨k, hk'⟩) 0 1
      ∧ (c.get ⟨k, hk⟩) 0 2 = (c'.get ⟨k, hk'⟩) 0 2
      ∧ (c.get ⟨k, hk⟩) 0 4 = (c'.get ⟨k, hk'⟩) 0 4
      ∧ (c.get ⟨k, hk⟩) 1 2 = (c'.get ⟨k, hk'⟩) 1 2
      ∧ (c.get ⟨k, hk⟩) 1 4 = (c'.get ⟨k, hk'⟩) 1 4
      ∧ (c.get ⟨k, hk⟩) 2 4 = (c'.get ⟨k, hk'⟩) 2 4
      ∧ (c.get ⟨k, hk⟩) 3 5 = (c'.get ⟨k, hk'⟩) 3 5) :
    backus_monoclin f c = backus_monoclin f c' := by
  have glem : ∀ i j : Fin 6,
      (∀ (k : ℕ) (hk : k < c.length) (hk' : k < c'.length),
        (c.get ⟨k, hk⟩) i j = (c'.get ⟨k, hk'⟩) i j) →
      Backus.get c i j = Backus.get c' i j := by
    intro i j hij
    apply List.ext_getElem
    · simp [Backus.get, hlen]
    · intro k h1 h2
      simp only [Backus.get, List.getElem_map]
      have hkc : k < c.length := by simpa [Backus.get] using h1
      have hkc' : k < c'.length := by simpa [Backus.get] using h2
      have hx := hij k hkc hkc'
      simpa [List.get_eq_getElem] using hx
  have g00 := glem 0 0 fun k hk hk' => (hagree k hk hk').1
  have g11 := glem 1 1 fun k hk hk' => (hagree k hk hk').2.1
  have g22 := glem 2 2 fun k hk hk' => (hagree k hk hk').2.2.1
  have g33 := glem 3 3 fun k hk hk' => (hagree k hk hk').2.2.2.1
  have g44 := glem 4 4 fun k hk hk' => (hagree k hk hk').2.2.2.2.1
  have g55 := glem 5 5 fun k hk hk' => (hagree k hk hk').2.2.2.2.2.1
  have g01 := glem 0 1 fun k hk hk' => (hagree k hk hk').2.2.2.2.2.2.1
  have g02 := glem 0 2 fun k hk hk' => (hagree k hk hk').2.2.2.2.2.2.2.1
  have g04 := glem 0 4 fun k hk hk' => (hagree k hk hk').2.2.2.2.2.2.2.2.1
  have g12 := glem 1 2 fun k hk hk' => (hagree k hk hk').2.2.2.2.2.2.2.2.2.1
  have g14 := glem 1 4 fun k hk hk' => (hagree k hk hk').2.2.2.2.2.2.2.2.2.2.1
  have g24 := glem 2 4 fun k hk hk' => (hagree k hk hk').2.2.2.2.2.2.2.2.2.2.2.1
  have g35 := glem 3 5 fun k hk hk' => (hagree k hk hk').2.2.2.2.2.2.2.2.2.2.2.2
  have hcore : backus_core f c = backus_core f c' := by
    unfold backus_core
    simp only [Backus.ce00, Backus.ce11, Backus.ce22, Backus.ce33, Backus.ce44,
      Backus.ce55, Backus.ce01, Backus.ce02, Backus.ce04, Backus.ce12, Backus.ce14,
      Backus.ce24, Backus.ce35, Backus.B5, Backus.B6, Backus.B7, Backus.AA,
      Backus.B1, Backus.B2, Backus.B3, Backus.B4, Backus.A,
      Backus.c11, Backus.c22, Backus.c33, Backus.c44, Backus.c55, Backus.c66,
      Backus.c12, Backus.c13, Backus.c15, Backus.c23, Backus.c25, Backus.c35,
      Backus.c46, g00, g11, g22, g33, g44, g55, g01, g02, g04, g12, g14, g24, g35]
  have h1 : ¬(c.length ≠ f.length) := by simp [hflen]
  have h1' : ¬(c'.length ≠ f.length) := by simp [← hlen, hflen]
  have h2 : ¬(|f.sum - 1| > eps) := not_lt.mpr hsum
  unfold backus_monoclin
  simp only [if_neg h1, if_neg h1', if_neg h2, hcore]

/-- C10 witness: one identity layer against one layer agreeing with the
identity except at the never-read lower-triangle entry (1,0). -/
theorem C10_read_set_witness :
    ([(1 : Mat6)] : List Mat6).length = ([cexM] : List Mat6).length
    ∧ ([(1 : Mat6)] : List Mat6).length = ([(1 : ℝ)] : List ℝ).length
    ∧ ([(1 : ℝ)] : List ℝ) ≠ []
    ∧ |([(1 : ℝ)] : List ℝ).sum - 1| ≤ eps
    ∧ (∀ (k : ℕ) (hk : k < ([(1 : Mat6)] : List Mat6).length)
        (hk' : k < ([cexM] : List Mat6).length),
      (([(1 : Mat6)] : List Mat6).get ⟨k, hk⟩) 0 0 = (([cexM] : List Mat6).get ⟨k, hk'⟩) 0 0
      ∧ (([(1 : Mat6)] : List Mat6).get ⟨k, hk⟩) 1 1 = (([cexM] : List Mat6).get ⟨k, hk'⟩) 1 1
      ∧ (([(1 : Mat6)] : List Mat6).get ⟨k, hk⟩) 2 2 = (([cexM] : List Mat6).get ⟨k, hk'⟩) 2 2
      ∧ (([(1 : Mat6)] : List Mat6).get ⟨k, hk⟩) 3 3 = (([cexM] : List Mat6).get ⟨k, hk'⟩) 3 3
      ∧ (([(1 : Mat6)] : List Mat6).get ⟨k, hk⟩) 4 4 = (([cexM] : List Mat6).get ⟨k, hk'⟩) 4 4
      ∧ (([(1 : Mat6)] : List Mat6).get ⟨k, hk⟩) 5 5 = (([cexM] : List Mat6).get ⟨k, hk'⟩) 5 5
      ∧ (([(1 : Mat6)] : List Mat6).get ⟨k, hk⟩) 0 1 = (([cexM] : List Mat6).get ⟨k, hk'⟩) 0 1
      ∧ (([(1 : Mat6)] : List Mat6).get ⟨k, hk⟩) 0 2 = (([cexM] : List Mat6).get ⟨k, hk'⟩) 0 2
      ∧ (([(1 : Mat6)] : List Mat6).get ⟨k, hk⟩) 0 4 = (([cexM] : List Mat6).get ⟨k, hk'⟩) 0 4
      ∧ (([(1 : Mat6)] : List Mat6).get ⟨k, hk⟩) 1 2 = (([cexM] : List Mat6).get ⟨k, hk'⟩) 1 2
      ∧ (([(1 : Mat6)] : List Mat6).get ⟨k, hk⟩) 1 4 = (([cexM] : List Mat6).get ⟨k, hk'⟩) 1 4
      ∧ (([(1 : Mat6)] : List Mat6).get ⟨k, hk⟩) 2 4 = (([cexM] : List Mat6).get ⟨k, hk'⟩) 2 4
      ∧ (([(1 : Mat6)] : List Mat6).get ⟨k, hk⟩) 3 5 = (([cexM] : List Mat6).get ⟨k, hk'⟩) 3 5)
    ∧ backus_monoclin [(1 : ℝ)] [(1 : Mat6)] = backus_monoclin [(1 : ℝ)] [cexM] := by
  have hagree : ∀ (k : ℕ) (hk : k < ([(1 : Mat6)] : List Mat6).length)
      (hk' : k < ([cexM] : List Mat6).length),
      (([(1 : Mat6)] : List Mat6).get ⟨k, hk⟩) 0 0 = (([cexM] : List Mat6).get ⟨k, hk'⟩) 0 0
      ∧ (([(1 : Mat6)] : List Mat6).get ⟨k, hk⟩) 1 1 = (([cexM] : List Mat6).get ⟨k, hk'⟩) 1 1
      ∧ (([(1 : Mat6)] : List Mat6).get ⟨k, hk⟩) 2 2 = (([cexM] : List Mat6).get ⟨k, hk'⟩) 2 2
      ∧ (([(1 : Mat6)] : List Mat6).get ⟨k, hk⟩) 3 3 = (([cexM] : List Mat6).get ⟨k, hk'⟩) 3 3
      ∧ (([(1 : Mat6)] : List Mat6).get ⟨k, hk⟩) 4 4 = (([cexM] : List Mat6).get ⟨k, hk'⟩) 4 4
      ∧ (([(1 : Mat6)] : List Mat6).get ⟨k, hk⟩) 5 5 = (([cexM] : List Mat6).get ⟨k, hk'⟩) 5 5
      ∧ (([(1 : Mat6)] : List Mat6).get ⟨k, hk⟩) 0 1 = (([cexM] : List Mat6).get ⟨k, hk'⟩) 0 1
      ∧ (([(1 : Mat6)] : List Mat6).get ⟨k, hk⟩) 0 2 = (([cexM] : List Mat6).get ⟨k, hk'⟩) 0 2
      ∧ (([(1 : Mat6)] : List Mat6).get ⟨k, hk⟩) 0 4 = (([cexM] : List Mat6).get ⟨k, hk'⟩) 0 4
      ∧ (([(1 : Mat6)] : List Mat6).get ⟨k, hk⟩) 1 2 = (([cexM] : List Mat6).get ⟨k, hk'⟩) 1 2
      ∧ (([(1 : Mat6)] : List Mat6).get ⟨k, hk⟩) 1 4 = (([cexM] : List Mat6).get ⟨k, hk'⟩) 1 4
      ∧ (([(1 : Mat6)] : List Mat6).get ⟨k, hk⟩) 2 4 = (([cexM] : List Mat6).get ⟨k, hk'⟩) 2 4
      ∧ (([(1 : Mat6)] : List Mat6).get ⟨k, hk⟩) 3 5 = (([cexM] : List Mat6).get ⟨k, hk'⟩) 3 5 := by
    intro k hk hk'
    have hk0 : k = 0 := by
      simp only [List.length_singleton] at hk
      omega
    subst hk0
    refine ⟨?_, ?_, ?_, ?_, ?_, ?_, ?_, ?_, ?_, ?_, ?_, ?_, ?_⟩ <;>
      simp [cexM, List.get]
  exact ⟨rfl, rfl, by simp, by norm_num [eps], hagree,
    C10_read_set [(1 : ℝ)] [(1 : Mat6)] [cexM] rfl rfl (by simp)
      (by norm_num [eps]) hagree⟩

/-- C4: the two rotation algorithms agree: for every symmetric 6x6 matrix M
and every rotation matrix R, the tensor-contraction path rotate_Cij and the
closed-form K-matrix path rotateViaKMatrix both return symmetric matrices
and produce equal results (exactly, over the reals). -/
theorem C4_two_algorithms (M : Mat6) (R : Mat3) (h : ∀ i j, M i j = M j i)
    (hR : R * Rᵀ = 1) :
    (∀ i j, rotate_Cij M R i j = rotate_Cij M R j i)
    ∧ (∀ i j, rotateViaKMatrix M R i j = rotateViaKMatrix M R j i)
    ∧ rotate_Cij M R = rotateViaKMatrix M R := by
  have hmain := rotate_paths_agree M R h
  have hMT : Mᵀ = M := by
    ext a b
    rw [Matrix.transpose_apply]
    exact h b a
  have hKT : (rotateViaKMatrix M R)ᵀ = rotateViaKMatrix M R := by
    unfold rotateViaKMatrix
    rw [Matrix.transpose_mul, Matrix.transpose_mul, Matrix.transpose_transpose, hMT,
      Matrix.mul_assoc]
  have hKsym : ∀ i j, rotateViaKMatrix M R i j = rotateViaKMatrix M R j i := by
    intro i j
    rw [← Matrix.transpose_apply (rotateViaKMatrix M R) j i, hKT]
  refine ⟨?_, hKsym, hmain⟩
  intro i j
  rw [hmain]
  exact hKsym i j

/-- C4 witness: both paths evaluated at the symmetric matrix 1 with the
identity rotation. -/
theorem C4_two_algorithms_witness :
    (∀ i j, (1 : Mat6) i j = (1 : Mat6) j i)
    ∧ (1 : Mat3) * (1 : Mat3)ᵀ = 1
    ∧ ((∀ i j, rotate_Cij 1 1 i j = rotate_Cij 1 1 j i)
      ∧ (∀ i j, rotateViaKMatrix 1 1 i j = rotateViaKMatrix 1 1 j i)
      ∧ rotate_Cij 1 1 = rotateViaKMatrix 1 1) := by
  have hR : (1 : Mat3) * (1 : Mat3)ᵀ = 1 := by
    rw [Matrix.transpose_one, Matrix.one_mul]
  exact ⟨one6_symm, hR, C4_two_algorithms 1 1 one6_symm hR⟩

end
